import Mathlib

/-!
Verification of the PriceHawk core against its specification.

Shallow embedding of the TypeScript sources:
* `src/lib/ai/scraping-agent.ts` — OpenRouter model router (unicorn detection,
  timestamp sliding-window circuit breaker, standard-pool selection);
* `src/lib/ai/model-selector.ts` and `src/lib/ai/models.ts` — weighted
  round-robin selector with open/half-open/closed circuit breakers;
* `src/workers/notification-sender.ts` and the anomaly-validator worker —
  cursor-based stream consumers with retry and dead-letter routing;
* `src/lib/notifications/subscriber-service.ts` — per-subscriber fan-out with
  preference filtering, tier gating and per-user dedup;
* `src/lib/subscription.ts` — tier table and `hasAccess`;
* `src/lib/queues/notification-queue.ts` — delayed job submission.

Machine numbers of the source (JS `number`) are embedded as `ℚ` where only
arithmetic comparisons and exact rational arithmetic occur, and as `ℕ` for
timestamps, counters and millisecond delays.  Stateful code is embedded as
explicit state passing; external effects (provider sends, handler outcomes,
`Math.random`) are oracle parameters.
-/

set_option autoImplicit false

namespace PriceHawk

/-! ## Scraping-agent router (`src/lib/ai/scraping-agent.ts`) -/

namespace ScrapingAgent

/-- Embedding of `UNICORN_DISCOUNT_THRESHOLD` (scraping-agent.ts line 900). -/
def UNICORN_DISCOUNT_THRESHOLD : ℚ := 80

/-- Embedding of `UNICORN_CONFIDENCE_THRESHOLD` (scraping-agent.ts line 901). -/
def UNICORN_CONFIDENCE_THRESHOLD : ℚ := 85

/-- Embedding of `UNICORN_ZSCORE_THRESHOLD` (scraping-agent.ts line 902). -/
def UNICORN_ZSCORE_THRESHOLD : ℚ := 4

/-- Embedding of `CIRCUIT_BREAKER_THRESHOLD` (scraping-agent.ts line 831). -/
def CIRCUIT_BREAKER_THRESHOLD : ℕ := 3

/-- Embedding of `CIRCUIT_BREAKER_WINDOW_MS = 5 * 60 * 1000` (scraping-agent.ts line 832). -/
def CIRCUIT_BREAKER_WINDOW_MS : ℕ := 5 * 60 * 1000

/-- The fields of `UnicornContext` read by `isUnicornOpportunity`; the source
interface also carries `currentPrice`, `normalPrice` and a product snapshot,
none of which the function reads. -/
structure UnicornContext where
  discount : ℚ
  confidence : ℚ
  zScore : Option ℚ

/-- Embedding of `isUnicornOpportunity` (scraping-agent.ts lines 1003–1023): count the
criteria met and require at least two.  An absent `zScore` contributes
nothing (`zScore !== undefined && zScore >= UNICORN_ZSCORE_THRESHOLD`). -/
def isUnicornOpportunity (context : UnicornContext) : Bool :=
  let criteriaMet : ℕ :=
    (if UNICORN_DISCOUNT_THRESHOLD ≤ context.discount then 1 else 0) +
    (if UNICORN_CONFIDENCE_THRESHOLD ≤ context.confidence then 1 else 0) +
    (match context.zScore with
     | some z => if UNICORN_ZSCORE_THRESHOLD ≤ z then 1 else 0
     | none => 0)
  decide (2 ≤ criteriaMet)

/-- Embedding of `state.errorCounts : Map<string, ModelErrorState>`; a model id maps to its
recorded error timestamps (`ModelErrorState.timestamps`), absent when the
model has no record. -/
def ErrorCounts : Type := String → Option (List ℕ)

/-- The initial module-level state: no error records. -/
def emptyErrorCounts : ErrorCounts := fun _ => none

/-- Embedding of `reportModelError` (scraping-agent.ts lines 924–942): drop timestamps
older than the window, then push `now`. -/
def reportModelError (now : ℕ) (modelId : String) (ec : ErrorCounts) : ErrorCounts :=
  match ec modelId with
  | some existing =>
    let recentErrors := existing.filter (fun ts => now - ts < CIRCUIT_BREAKER_WINDOW_MS)
    fun id => if id = modelId then some (recentErrors ++ [now]) else ec id
  | none =>
    fun id => if id = modelId then some [now] else ec id

/-- Embedding of `isCircuitBroken` (scraping-agent.ts lines 948–967).  Returns the flag and
the updated state (the source prunes stale timestamps in place). -/
def isCircuitBroken (now : ℕ) (modelId : String) (ec : ErrorCounts) : Bool × ErrorCounts :=
  match ec modelId with
  | none => (false, ec)
  | some existing =>
    let recentErrors := existing.filter (fun ts => now - ts < CIRCUIT_BREAKER_WINDOW_MS)
    if recentErrors.isEmpty then
      (false, fun id => if id = modelId then none else ec id)
    else
      (decide (CIRCUIT_BREAKER_THRESHOLD ≤ recentErrors.length),
       fun id => if id = modelId then some recentErrors else ec id)

/-- Embedding of `resetCircuitBreaker` (scraping-agent.ts): delete the record held for the model. -/
def resetCircuitBreaker (modelId : String) (ec : ErrorCounts) : ErrorCounts :=
  fun id => if id = modelId then none else ec id

/-- Embedding of `clearAllCircuitBreakers` (scraping-agent.ts): `state.errorCounts.clear()`. -/
def clearAllCircuitBreakers (_ec : ErrorCounts) : ErrorCounts :=
  fun _ => none

/-- A trace of `reportModelError` calls for one model at the given
timestamps, in order. -/
def reportAll (modelId : String) (ts : List ℕ) (ec : ErrorCounts) : ErrorCounts :=
  ts.foldl (fun e t => reportModelError t modelId e) ec

/-- Embedding of `ModelConfig` of scraping-agent.ts (id, name, weight, maxTokens,
contextWindow). -/
structure ModelConfig where
  id : String
  name : String
  weight : ℚ
  maxTokens : ℕ
  contextWindow : ℕ
deriving DecidableEq, Inhabited

/-- Embedding of `FREE_MODELS` (scraping-agent.ts lines 835–879). -/
def FREE_MODELS : List ModelConfig :=
  [ { id := "google/gemini-flash-1.5-8b", name := "Gemini Flash 1.5 8B",
      weight := 30, maxTokens := 8192, contextWindow := 1000000 },
    { id := "meta-llama/llama-3.2-3b-instruct:free", name := "Llama 3.2 3B Instruct",
      weight := 25, maxTokens := 8192, contextWindow := 131072 },
    { id := "qwen/qwen-2.5-7b-instruct:free", name := "Qwen 2.5 7B Instruct",
      weight := 20, maxTokens := 8192, contextWindow := 32768 },
    { id := "mistralai/mistral-7b-instruct:free", name := "Mistral 7B Instruct",
      weight := 15, maxTokens := 8192, contextWindow := 32768 },
    { id := "huggingfaceh4/zephyr-7b-beta:free", name := "Zephyr 7B Beta",
      weight := 10, maxTokens := 4096, contextWindow := 4096 } ]

/-- Inner loop of `weightedRandomSelection`: subtract each weight from the
random draw and return the first model at which the draw falls to `≤ 0`. -/
def wrsWalk (random : ℚ) : List ModelConfig → Option ModelConfig
  | [] => none
  | m :: rest =>
    let random2 := random - m.weight
    if random2 ≤ 0 then some m else wrsWalk random2 rest

/-- Embedding of `weightedRandomSelection` (scraping-agent.ts lines 1030–1054), with
`Math.random()` passed in as `rand ∈ [0,1)`.  The source throws on an empty
list (`none` here) and falls back to the last model when the walk finishes. -/
def weightedRandomSelection (rand : ℚ) (models : List ModelConfig) : Option ModelConfig :=
  match models with
  | [] => none
  | [m] => some m
  | m :: rest =>
    let totalWeight := (m :: rest).foldl (fun sum mdl => sum + mdl.weight) 0
    let random := rand * totalWeight
    some ((wrsWalk random (m :: rest)).getD ((m :: rest).getLastD m))

/-- The `FREE_MODELS.filter((m) => !isCircuitBroken(m.id))` step of
`selectStandardModel`; each `isCircuitBroken` call updates the state. -/
def filterHealthy (now : ℕ) (models : List ModelConfig) (ec : ErrorCounts) :
    List ModelConfig × ErrorCounts :=
  models.foldl
    (fun acc m =>
      let res := isCircuitBroken now m.id acc.2
      (if res.1 then acc.1 else acc.1 ++ [m], res.2))
    ([], ec)

/-- The number of recorded error timestamps of a model still inside the
sliding window at `now`. -/
def recentCount (now : ℕ) (modelId : String) (ec : ErrorCounts) : ℕ :=
  (((ec modelId).getD []).filter (fun ts => now - ts < CIRCUIT_BREAKER_WINDOW_MS)).length

/-- An error-count state in which every free model has three recent errors;
the Llama circuit tripped earliest (its third error landed at time 2, the
others at time 12). -/
def allBrokenCounts : ErrorCounts := fun id =>
  if id = "meta-llama/llama-3.2-3b-instruct:free" then some [0, 1, 2]
  else if id = "google/gemini-flash-1.5-8b" then some [10, 11, 12]
  else if id = "qwen/qwen-2.5-7b-instruct:free" then some [10, 11, 12]
  else if id = "mistralai/mistral-7b-instruct:free" then some [10, 11, 12]
  else if id = "huggingfaceh4/zephyr-7b-beta:free" then some [10, 11, 12]
  else none

/-- Embedding of `selectStandardModel` (scraping-agent.ts lines 1063–1081): filter broken
models; when none are healthy, clear every circuit breaker and return
`FREE_MODELS[0]`; otherwise select by weight (`rand` is `Math.random()`). -/
def selectStandardModel (rand : ℚ) (now : ℕ) (ec : ErrorCounts) :
    ModelConfig × ErrorCounts :=
  let healthy := filterHealthy now FREE_MODELS ec
  if healthy.1.isEmpty then
    (FREE_MODELS.headI, clearAllCircuitBreakers healthy.2)
  else
    ((weightedRandomSelection rand healthy.1).getD FREE_MODELS.headI, healthy.2)

end ScrapingAgent

/-! ## Weighted model selector (`src/lib/ai/model-selector.ts`, `models.ts`) -/

namespace ModelSelector

/-- Embedding of `CIRCUIT_BREAKER_THRESHOLD` of model-selector.ts (consecutive failures
before the circuit opens). -/
def CIRCUIT_BREAKER_THRESHOLD : ℕ := 5

/-- Embedding of `CIRCUIT_BREAKER_RESET_MS = 5 * 60 * 1000` (model-selector.ts). -/
def CIRCUIT_BREAKER_RESET_MS : ℕ := 5 * 60 * 1000

/-- The fields of `ModelConfig` (models.ts) read by the selector; the source
also records provider, tier, capabilities, costs and timeouts, which the
selector never branches on. -/
structure ModelConfig where
  id : String
  weight : ℕ
  enabled : Bool
deriving DecidableEq

/-- Embedding of `ModelPerformance` counters (models.ts); `lastUsed : Date` is omitted
(never read by weight computation or selection). -/
structure ModelPerformance where
  successCount : ℕ
  failureCount : ℕ
  totalLatencyMs : ℕ
  consecutiveFailures : ℕ
  toolCallSuccessCount : ℕ
  toolCallFailureCount : ℕ
deriving DecidableEq

/-- Circuit state of model-selector.ts. -/
inductive CState where
  | closed
  | opn
  | halfOpen
deriving DecidableEq

/-- Embedding of `CircuitBreakerState` (model-selector.ts): state, opening time and a
failure count snapshot. -/
structure CircuitBreakerState where
  state : CState
  openedAt : ℕ
  failureCount : ℕ
deriving DecidableEq

/-- A JS `Map` keyed by model id: an association list in insertion order. -/
abbrev StrMap (β : Type) : Type := List (String × β)

/-- Embedding of `Map.get`. -/
def mapGet {β : Type} (m : StrMap β) (key : String) : Option β :=
  List.lookup key m

/-- Embedding of `Map.set`: overwrite in place when the key exists (position preserved),
append otherwise. -/
def mapSet {β : Type} (m : StrMap β) (key : String) (v : β) : StrMap β :=
  if m.any (fun p => p.1 = key) then
    m.map (fun p => if p.1 = key then (key, v) else p)
  else
    m ++ [(key, v)]

/-- Embedding of `calculateEffectiveWeight` (models.ts lines 353–388).  JS arithmetic is
embedded over `ℚ` with `Math.round`/`Math.min`/`Math.max` as `round`, `min`
and `max`; the result is an integer. -/
def calculateEffectiveWeight (model : ModelConfig) (performance : Option ModelPerformance) : ℤ :=
  match performance with
  | none => (model.weight : ℤ)
  | some perf =>
    let totalRequests := perf.successCount + perf.failureCount
    if totalRequests = 0 then (model.weight : ℤ)
    else
      let successRate : ℚ := (perf.successCount : ℚ) / (totalRequests : ℚ)
      let consecutiveFailurePenalty : ℤ := min ((perf.consecutiveFailures : ℤ) * 10) 80
      let toolCallTotal := perf.toolCallSuccessCount + perf.toolCallFailureCount
      let toolCallBonus : ℤ :=
        if 0 < toolCallTotal then
          round ((perf.toolCallSuccessCount : ℚ) / (toolCallTotal : ℚ) * 5)
        else 0
      max 1 (round ((model.weight : ℚ) * successRate) - consecutiveFailurePenalty + toolCallBonus)

/-- Embedding of `getEnabledModels` (models.ts lines 300–304): enabled models sorted by
weight, descending; JS `Array.prototype.sort` is stable, as is
`List.insertionSort`. -/
def getEnabledModels (models : List ModelConfig) : List ModelConfig :=
  (models.filter (fun m => m.enabled)).insertionSort (fun a b => b.weight ≤ a.weight)

/-- The selector state the class fields hold: `state.performances` and
`circuitBreakers` (both JS `Map`s keyed by model id). -/
structure SelectorState where
  performances : StrMap ModelPerformance
  circuitBreakers : StrMap CircuitBreakerState

/-- Embedding of `isCircuitOpen` (model-selector.ts): `closed` or absent is not open; an
`open` circuit past `CIRCUIT_BREAKER_RESET_MS` flips to half-open (a state
mutation) and reports not open; half-open is not open. -/
def isCircuitOpen (now : ℕ) (modelId : String) (cbs : StrMap CircuitBreakerState) :
    Bool × StrMap CircuitBreakerState :=
  match mapGet cbs modelId with
  | none => (false, cbs)
  | some circuit =>
    if circuit.state = CState.closed then (false, cbs)
    else if circuit.state = CState.opn ∧ CIRCUIT_BREAKER_RESET_MS ≤ now - circuit.openedAt then
      (false, mapSet cbs modelId { circuit with state := CState.halfOpen })
    else
      (decide (circuit.state = CState.opn), cbs)

/-- The `enabledModels.filter(model => !this.isCircuitOpen(model.id))` step of
`selectModel`; each `isCircuitOpen` call threads the (possibly mutated)
circuit map. -/
def filterAvailable (now : ℕ) (models : List ModelConfig)
    (cbs : StrMap CircuitBreakerState) :
    List ModelConfig × StrMap CircuitBreakerState :=
  models.foldl
    (fun acc m =>
      let res := isCircuitOpen now m.id acc.2
      (if res.1 then acc.1 else acc.1 ++ [m], res.2))
    ([], cbs)

/-- One step of the `resetOldestCircuit` walk: keep the open circuit with the
strictly smallest `openedAt` seen so far, remembering its model when the
static table has it. -/
def resetFoldStep (models : List ModelConfig)
    (best : Option (String × CircuitBreakerState) × Option ModelConfig)
    (p : String × CircuitBreakerState) :
    Option (String × CircuitBreakerState) × Option ModelConfig :=
  if (decide (p.2.state = CState.opn) &&
      (match best.1 with
       | none => true
       | some b => decide (p.2.openedAt < b.2.openedAt))) then
    (some p,
     match models.find? (fun m => m.id = p.1) with
     | some m => some m
     | none => best.2)
  else best

/-- Embedding of `resetOldestCircuit` (model-selector.ts): walk the circuit map in
insertion order keeping the open circuit with the strictly smallest
`openedAt`; remember its model when the static table has it; finally flip the
chosen circuit to half-open.  Returns the remembered model and the updated
map. -/
def resetOldestCircuit (models : List ModelConfig) (cbs : StrMap CircuitBreakerState) :
    Option ModelConfig × StrMap CircuitBreakerState :=
  let best := cbs.foldl (resetFoldStep models) (none, none)
  match best.1 with
  | some b => (best.2, mapSet cbs b.1 { b.2 with state := CState.halfOpen })
  | none => (best.2, cbs)

/-- The cumulative-weight walk of `selectModel`: `selectedModel` starts at
`availableModels[0]` and is replaced by the first model whose cumulative
effective weight reaches the draw. -/
def selectWalk (perfs : StrMap ModelPerformance) (randomValue : ℚ) :
    List ModelConfig → ℚ → Option ModelConfig
  | [], _ => none
  | m :: rest, cumulativeWeight =>
    let cw := cumulativeWeight + (calculateEffectiveWeight m (mapGet perfs m.id) : ℚ)
    if randomValue ≤ cw then some m else selectWalk perfs randomValue rest cw

/-- Embedding of `selectModel` (model-selector.ts lines 60–131), with the static table
`OPENROUTER_MODELS` passed as `models`, `Math.random()` as `rand ∈ [0,1)`
and `Date.now()` as `now`.  Throws (`Except.error`) only when no model is
enabled; when every available circuit is open it resets the oldest and
returns its model; the remaining path is the weighted draw. -/
def selectModel (models : List ModelConfig) (rand : ℚ) (now : ℕ) (st : SelectorState) :
    Except String (ModelConfig × ℤ) × SelectorState :=
  match getEnabledModels models with
  | [] => (Except.error "No enabled models available", st)
  | m0 :: ms =>
    let enabledModels := m0 :: ms
    let avail := filterAvailable now enabledModels st.circuitBreakers
    let st1 : SelectorState := { st with circuitBreakers := avail.2 }
    if avail.1.isEmpty then
      let reset := resetOldestCircuit models avail.2
      let st2 : SelectorState := { st1 with circuitBreakers := reset.2 }
      match reset.1 with
      | some oldestModel =>
        (Except.ok (oldestModel,
          calculateEffectiveWeight oldestModel (mapGet st.performances oldestModel.id)), st2)
      | none => (Except.ok (m0, (m0.weight : ℤ)), st2)
    else
      let totalWeight : ℚ :=
        avail.1.foldl
          (fun sum m => sum + (calculateEffectiveWeight m (mapGet st.performances m.id) : ℚ)) 0
      let randomValue := rand * totalWeight
      let selectedModel := (selectWalk st.performances randomValue avail.1 0).getD (avail.1.headD m0)
      (Except.ok (selectedModel,
        calculateEffectiveWeight selectedModel (mapGet st.performances selectedModel.id)), st1)

end ModelSelector

/-! ## Stream consumer loop (anomaly-validator worker and
`src/workers/notification-sender.ts`)

Both workers run the same skeleton: read a batch strictly after the cursor,
and for each entry either skip it (missing payload), process it, or on a
thrown error bump an in-process failure counter, breaking out of the batch
below `MAX_RETRIES` and dead-lettering at `MAX_RETRIES`. -/

namespace StreamConsumer

/-- Embedding of `STREAM_MAX_RETRIES` default (both workers): 5. -/
def STREAM_MAX_RETRIES : ℕ := 5

/-- Embedding of `STREAM_BATCH_SIZE` default (both workers): 50. -/
def STREAM_BATCH_SIZE : ℕ := 50

/-- A stream entry: Redis stream ids `ms-seq` are totally ordered and are
embedded as `ℕ`; `data` is the `entry.fields.data` payload field, absent when
the producer wrote no `data` field. -/
structure StreamEntry where
  id : ℕ
  data : Option String
deriving DecidableEq

/-- A dead-letter record: `moveToDLQ(stream, entry.id, entry.fields.data,
error)` appended to the stream named `dlq.` ++ the original stream. -/
structure DLQRecord where
  dlqStream : String
  stream : String
  entryId : ℕ
  payload : Option String
  error : String
deriving DecidableEq

/-- Modelled from the spec: `moveToDLQ` lives in `src/lib/streams/dlq.ts`,
which is not among the source files (only its callers are).  The DLQ
contract of the spec: append a record carrying the original stream, entry id, payload and
error to the DLQ stream named `dlq.` followed by the original stream name. -/
def moveToDLQ (stream : String) (entryId : ℕ) (payload : Option String)
    (error : String) (dlq : List DLQRecord) : List DLQRecord :=
  dlq ++ [{ dlqStream := "dlq." ++ stream, stream := stream, entryId := entryId,
            payload := payload, error := error }]

/-- Consumer-visible state: the cursor KV value (`0` embeds the initial
`"0-0"`), the in-process `failures` map (absent entries read `0`, matching
`failures.get(id) || 0`; `failures.delete` stores `0`), and the DLQ stream. -/
structure ConsumerState where
  cursor : ℕ
  failures : ℕ → ℕ
  dlq : List DLQRecord

/-- Worker start state: cursor at `"0-0"`, empty failure map, empty DLQ. -/
def initialState : ConsumerState :=
  { cursor := 0, failures := fun _ => 0, dlq := [] }

/-- The error message `JSON.parse` throws on an unparseable payload. -/
def parseError : String := "SyntaxError: unexpected JSON input"

/-- One pass of the `for (const entry of entries)` loop shared by the
anomaly-validator worker and notification-sender.ts.  `parse` embeds
`JSON.parse(payload)` (`none` = throws); `handler` embeds the entry handler
(`validateAndProcess` / the glitch-dispatch body), given the parsed value and
the current failure count of the entry, returning `some errorMessage` on a thrown
error.  On success the failure counter is cleared and the cursor advances; a
missing payload is warned about and skipped with the cursor advanced; a
thrown error bumps the counter, dead-letters and advances at
`maxRetries`, and otherwise breaks out of the batch without advancing. -/
def runEntries {α : Type} (streamName : String) (maxRetries : ℕ)
    (parse : String → Option α) (handler : α → ℕ → Option String) :
    List StreamEntry → ConsumerState → ConsumerState
  | [], s => s
  | entry :: rest, s =>
    match entry.data with
    | none =>
      -- missing data field: warn and advance the cursor
      runEntries streamName maxRetries parse handler rest
        { s with cursor := entry.id }
    | some payload =>
      match parse payload with
      | none =>
        -- JSON.parse throws: caught by the catch block
        let count := s.failures entry.id + 1
        if maxRetries ≤ count then
          runEntries streamName maxRetries parse handler rest
            { cursor := entry.id,
              failures := fun i => if i = entry.id then 0 else s.failures i,
              dlq := moveToDLQ streamName entry.id entry.data parseError s.dlq }
        else
          { s with failures := fun i => if i = entry.id then count else s.failures i }
      | some parsed =>
        match handler parsed (s.failures entry.id) with
        | none =>
          -- success: clear the counter, advance the cursor
          runEntries streamName maxRetries parse handler rest
            { s with
              cursor := entry.id,
              failures := fun i => if i = entry.id then 0 else s.failures i }
        | some err =>
          -- handler threw: caught by the catch block
          let count := s.failures entry.id + 1
          if maxRetries ≤ count then
            runEntries streamName maxRetries parse handler rest
              { cursor := entry.id,
                failures := fun i => if i = entry.id then 0 else s.failures i,
                dlq := moveToDLQ streamName entry.id entry.data err s.dlq }
          else
            { s with failures := fun i => if i = entry.id then count else s.failures i }

/-- Modelled from the spec: `readStream(stream, lastId, count)` wraps the Bus
`xread` contract — up to `count` entries strictly after `lastId`, in
insertion order (the adapter in `src/lib/clients/redis` is not among the
source files). -/
def readStream (stream : List StreamEntry) (lastId : ℕ) (count : ℕ) : List StreamEntry :=
  (stream.filter (fun e => lastId < e.id)).take count

/-- One iteration of the worker while-loop: load the cursor, read a
batch, process it (an empty read just sleeps). -/
def loopIter {α : Type} (streamName : String) (maxRetries batchSize : ℕ)
    (parse : String → Option α) (handler : α → ℕ → Option String)
    (stream : List StreamEntry) (s : ConsumerState) : ConsumerState :=
  let entries := readStream stream s.cursor batchSize
  if entries.isEmpty then s
  else runEntries streamName maxRetries parse handler entries s

/-- Runs `n` iterations of the worker loop. -/
def runLoop {α : Type} (streamName : String) (maxRetries batchSize : ℕ)
    (parse : String → Option α) (handler : α → ℕ → Option String)
    (stream : List StreamEntry) : ℕ → ConsumerState → ConsumerState
  | 0, s => s
  | n + 1, s =>
    runLoop streamName maxRetries batchSize parse handler stream n
      (loopIter streamName maxRetries batchSize parse handler stream s)

end StreamConsumer

/-! ## Subscription tiers (`src/lib/subscription.ts`) -/

namespace Subscription

/-- Embedding of `SubscriptionTier = keyof typeof SUBSCRIPTION_TIERS`. -/
inductive Tier where
  | free
  | starter
  | pro
  | elite
deriving DecidableEq

/-- Embedding of `getTierLevel` (subscription.ts). -/
def getTierLevel : Tier → ℕ
  | Tier.free => 0
  | Tier.starter => 1
  | Tier.pro => 2
  | Tier.elite => 3

/-- Embedding of `hasAccess(userTier, requiredTier)` (subscription.ts). -/
def hasAccess (userTier requiredTier : Tier) : Bool :=
  decide (getTierLevel requiredTier ≤ getTierLevel userTier)

/-- Tier names as they appear in job ids (joined by dashes). -/
def tierName : Tier → String
  | Tier.free => "free"
  | Tier.starter => "starter"
  | Tier.pro => "pro"
  | Tier.elite => "elite"

end Subscription

/-! ## Key-value store

The Upstash adapter (`getKey`/`setKey` in `src/lib/clients/redis`) is not
among the source files; modelled from the KV contract of the spec: `get` returns
the stored string or null, `set` stores a value with an optional TTL in
seconds (last-writer-wins). -/

namespace KVStore

/-- The KV store: a key maps to a value and the TTL it was set with. -/
abbrev KV : Type := String → Option (String × Option ℕ)

/-- Modelled from the spec: `getKey` — the stored value or null. -/
def getKey (kv : KV) (key : String) : Option String :=
  (kv key).map Prod.fst

/-- Modelled from the spec: `setKey(key, value, ttlSeconds?)`. -/
def setKey (kv : KV) (key : String) (value : String) (ttlSeconds : Option ℕ) : KV :=
  fun k => if k = key then some (value, ttlSeconds) else kv k

/-- An empty store. -/
def emptyKV : KV := fun _ => none

end KVStore

/-! ## Notification dispatcher (`src/workers/notification-sender.ts` and
`src/lib/queues/notification-queue.ts`) -/

namespace Dispatcher

open Subscription KVStore

/-- Embedding of `NOTIFY_DEDUP_TTL_SECONDS` default (notification-sender.ts): 86400. -/
def NOTIFY_DEDUP_TTL_SECONDS : ℕ := 86400

/-- The fields of `ValidatedGlitch` the dispatcher and the subscriber service
read. -/
structure Product where
  price : ℚ
  category : Option String
  retailer : String
deriving DecidableEq

/-- Embedding of `ValidatedGlitch` (fields read by the dispatch path). -/
structure ValidatedGlitch where
  id : String
  anomalyId : String
  profitMargin : ℚ
  product : Product
deriving DecidableEq

/-- Embedding of `notifiedKey(glitchId)` (notification-sender.ts). -/
def notifiedKey (glitchId : String) : String :=
  "dedup:notifications:" ++ glitchId

/-- A job on the BullMQ `notification-jobs` queue. -/
structure NotificationJob where
  jobId : String
  glitchId : String
  targetTiers : List Tier
  delayMs : ℕ
deriving DecidableEq

/-- The BullMQ job id `notify-` ++ glitch id ++ `-` ++ tiers joined by `-`
(notification-queue.ts). -/
def jobIdFor (glitchId : String) (targetTiers : List Tier) : String :=
  "notify-" ++ glitchId ++ "-" ++ String.intercalate "-" (targetTiers.map tierName)

/-- Embedding of `addNotificationJob` (notification-queue.ts): `Queue.add` with an
explicit `jobId` is deduplicated on that id (the Delay Queue contract of the spec:
`add(name, payload, delay_ms, unique_id?)` dedups on `unique_id`). -/
def addNotificationJob (glitch : ValidatedGlitch) (targetTiers : List Tier)
    (delayMs : ℕ) (queue : List NotificationJob) : List NotificationJob :=
  let jobId := jobIdFor glitch.id targetTiers
  if queue.any (fun j => j.jobId = jobId) then queue
  else queue ++ [{ jobId := jobId, glitchId := glitch.id,
                   targetTiers := targetTiers, delayMs := delayMs }]

/-- Dispatcher-visible state: the KV store, the delay queue, and the glitch
ids broadcast so far through `notificationManager.notifyAll`. -/
structure DispatchState where
  kv : KV
  jobs : List NotificationJob
  broadcasts : List String

/-- The body of the notification-sender loop for one parsed
`ValidatedGlitch` (notification-sender.ts lines 75–104), on its success path:
if the glitch-level dedup key is present nothing is sent or scheduled;
otherwise broadcast, schedule three per-tier delayed jobs (pro/elite at 0 ms,
starter at 24 h, free at 72 h) and set the dedup key with a 24 h TTL.
Metrics and the mark-notified DB update are external side effects carrying no
dispatch state and are omitted. -/
def processConfirmedGlitch (glitch : ValidatedGlitch) (s : DispatchState) : DispatchState :=
  match getKey s.kv (notifiedKey glitch.id) with
  | some _ => s
  | none =>
    let broadcasts := s.broadcasts ++ [glitch.id]
    let jobs := addNotificationJob glitch [Tier.pro, Tier.elite] 0 s.jobs
    let jobs := addNotificationJob glitch [Tier.starter] (24 * 60 * 60 * 1000) jobs
    let jobs := addNotificationJob glitch [Tier.free] (72 * 60 * 60 * 1000) jobs
    { kv := setKey s.kv (notifiedKey glitch.id) "1" (some NOTIFY_DEDUP_TTL_SECONDS),
      jobs := jobs,
      broadcasts := broadcasts }

/-- Processing the same confirmed glitch `n` times (one stream entry each). -/
def processNTimes (glitch : ValidatedGlitch) : ℕ → DispatchState → DispatchState
  | 0, s => s
  | n + 1, s => processNTimes glitch n (processConfirmedGlitch glitch s)

end Dispatcher

/-! ## Subscriber notification service
(`src/lib/notifications/subscriber-service.ts`) -/

namespace SubscriberService

open Subscription KVStore Dispatcher

/-- Per-character lowering; embeds `String.prototype.toLowerCase` for the
ASCII category/filter strings the service compares. -/
def toLowerStr (s : String) : String :=
  String.mk (s.data.map Char.toLower)

/-- Embedding of `String.prototype.includes`: substring containment. -/
def strIncludes (s pat : String) : Bool :=
  decide (pat.toList <:+: s.toList)

/-- The user preferences row (fields read by the service).  `minPrice` and
`maxPrice` are nullable decimals. -/
structure Prefs where
  categories : List String
  minProfitMargin : ℚ
  minPrice : Option ℚ
  maxPrice : Option ℚ
  retailers : List String
  enableEmail : Bool
  enableSMS : Bool
  enableTelegram : Bool
  enableWhatsApp : Bool
  telegramChatId : Option String
deriving DecidableEq

/-- A user row joined with subscription and preferences, as
`db.user.findMany` returns it. -/
structure Subscriber where
  id : String
  email : String
  phoneNumber : Option String
  subscriptionStatus : String
  subscriptionTier : Option Tier
  preferences : Option Prefs
deriving DecidableEq

/-- JS `Number(x || d)` on a nullable numeric field: the default replaces
both null and `0` (both falsy). -/
def jsNumOr (x : Option ℚ) (d : ℚ) : ℚ :=
  match x with
  | none => d
  | some v => if v = 0 then d else v

/-- Embedding of `matchesPreferences` (subscriber-service.ts lines 154–196).  No
preferences row matches everything; otherwise the glitch must meet the
minimum profit margin, the category filter (only applied when both the
filter and the product category are present; case-insensitive substring),
the retailer filter (exact membership), and the price range, whose bounds
default to `0` and `10000` through `Number(prefs.minPrice || 0)` and
`Number(prefs.maxPrice || 10000)`. -/
def matchesPreferences (glitch : ValidatedGlitch) : Option Prefs → Bool
  | none => true
  | some prefs =>
    if glitch.profitMargin < prefs.minProfitMargin then false
    else
      let categoryFail :=
        decide (0 < prefs.categories.length) &&
        (match glitch.product.category with
         | some c =>
           !(prefs.categories.any fun pc => strIncludes (toLowerStr c) (toLowerStr pc))
         | none => false)
      if categoryFail then false
      else if decide (0 < prefs.retailers.length) &&
              !(prefs.retailers.contains glitch.product.retailer) then false
      else
        let price := glitch.product.price
        let minPrice := jsNumOr prefs.minPrice 0
        let maxPrice := jsNumOr prefs.maxPrice 10000
        if price < minPrice || maxPrice < price then false
        else true

/-- The four per-subscriber channels of the service. -/
inductive Channel where
  | email
  | sms
  | telegram
  | whatsapp
deriving DecidableEq

/-- A provider invocation: which user, which channel, which address. -/
structure Send where
  userId : String
  channel : Channel
  target : String
deriving DecidableEq

/-- The per-user-per-glitch dedup key
(`notify:user:` uid `:glitch:` gid). -/
def userDedupKey (userId glitchId : String) : String :=
  "notify:user:" ++ userId ++ ":glitch:" ++ glitchId

/-- Which channels the preferences row of the user enables (a missing row enables
none: every `user.preferences?.enableX` is undefined). -/
def channelEnabled (user : Subscriber) (c : Channel) : Bool :=
  match user.preferences with
  | none => false
  | some p =>
    match c with
    | Channel.email => p.enableEmail
    | Channel.sms => p.enableSMS
    | Channel.telegram => p.enableTelegram
    | Channel.whatsapp => p.enableWhatsApp

/-- The tier gate the service applies per channel: email has no gate; SMS,
Telegram and WhatsApp each require `hasAccess` at the pro tier. -/
def tierAllows (tier : Tier) (c : Channel) : Bool :=
  match c with
  | Channel.email => true
  | Channel.sms => hasAccess tier Tier.pro
  | Channel.telegram => hasAccess tier Tier.pro
  | Channel.whatsapp => hasAccess tier Tier.pro

/-- The channel sends the body of the subscriber loop pushes for one user, in
source order: email when enabled; SMS when enabled, tier ≥ pro and a phone
number exists; Telegram when enabled, tier ≥ pro and a chat id exists;
WhatsApp when enabled, tier ≥ pro and a phone number exists. -/
def userSends (glitch : ValidatedGlitch) (user : Subscriber) : List Send :=
  match user.preferences with
  | none => []
  | some prefs =>
    let tier := user.subscriptionTier.getD Tier.free
    (if prefs.enableEmail then
       [{ userId := user.id, channel := Channel.email, target := user.email }]
     else []) ++
    (if prefs.enableSMS then
       if hasAccess tier Tier.pro then
         match user.phoneNumber with
         | some phoneNumber =>
           [{ userId := user.id, channel := Channel.sms, target := phoneNumber }]
         | none => []
       else []
     else []) ++
    (if prefs.enableTelegram then
       if hasAccess tier Tier.pro then
         match prefs.telegramChatId with
         | some chatId =>
           [{ userId := user.id, channel := Channel.telegram, target := chatId }]
         | none => []
       else []
     else []) ++
    (if prefs.enableWhatsApp then
       if hasAccess tier Tier.pro then
         match user.phoneNumber with
         | some phoneNumber =>
           [{ userId := user.id, channel := Channel.whatsapp, target := phoneNumber }]
         | none => []
       else []
     else [])

/-- The pass of one user through the subscriber loop.  `sendOk` is the provider
outcome oracle (the `result.success` of each provider send).  The user is
skipped when the preference filter fails or the per-user dedup key is
already set; otherwise every enabled and tier-authorized channel is invoked,
and each successful send sets the per-user dedup key with a 7-day TTL —
equivalently, the key ends up set exactly when some attempted channel
succeeded.  Distinct users touch distinct keys, so threading the KV runs the
asynchronous `.then` writers in order. -/
def notifyUser (sendOk : String → Channel → Bool) (glitch : ValidatedGlitch)
    (user : Subscriber) (kv : KV) : List Send × KV :=
  if !(matchesPreferences glitch user.preferences) then ([], kv)
  else
    let dedupKey := userDedupKey user.id glitch.id
    match getKey kv dedupKey with
    | some _ => ([], kv)
    | none =>
      let sends := userSends glitch user
      let anySuccess := sends.any (fun snd => sendOk snd.userId snd.channel)
      (sends, if anySuccess then setKey kv dedupKey "1" (some (86400 * 7)) else kv)

/-- The `db.user.findMany` where-clause: active subscriptions, restricted to
the target tiers when a non-empty list is given. -/
def eligibleQuery (users : List Subscriber) (targetTiers : Option (List Tier)) :
    List Subscriber :=
  users.filter fun u =>
    u.subscriptionStatus = "active" &&
    (match targetTiers with
     | some ts =>
       if 0 < ts.length then
         match u.subscriptionTier with
         | some t => ts.contains t
         | none => false
       else true
     | none => true)

/-- Embedding of `notifyEligibleSubscribers` (subscriber-service.ts lines 23–151): query
the eligible subscribers and run the per-user loop over them, collecting the
provider invocations and threading the KV store. -/
def notifyEligibleSubscribers (sendOk : String → Channel → Bool)
    (glitch : ValidatedGlitch) (targetTiers : Option (List Tier))
    (users : List Subscriber) (kv : KV) : List Send × KV :=
  (eligibleQuery users targetTiers).foldl
    (fun acc user =>
      let res := notifyUser sendOk glitch user acc.2
      (acc.1 ++ res.1, res.2))
    ([], kv)

end SubscriberService

/-! ## Theorems -/

/-- C7: for every unicorn context, the request is classified a unicorn if and
only if at least two of the conditions discount ≥ 80, confidence ≥ 85 and
z-score ≥ 4 hold; an absent z-score counts as not meeting its condition. -/
theorem unicorn_gating (context : ScrapingAgent.UnicornContext) :
    ScrapingAgent.isUnicornOpportunity context = true ↔
      ((80 ≤ context.discount ∧ 85 ≤ context.confidence) ∨
       (80 ≤ context.discount ∧ ∃ z, context.zScore = some z ∧ 4 ≤ z) ∨
       (85 ≤ context.confidence ∧ ∃ z, context.zScore = some z ∧ 4 ≤ z)) := by
  rcases context with ⟨discount, confidence, zScore⟩
  cases zScore with
  | none =>
    simp only [ScrapingAgent.isUnicornOpportunity, ScrapingAgent.UNICORN_DISCOUNT_THRESHOLD,
      ScrapingAgent.UNICORN_CONFIDENCE_THRESHOLD, ScrapingAgent.UNICORN_ZSCORE_THRESHOLD]
    split_ifs <;> simp_all
  | some z =>
    simp only [ScrapingAgent.isUnicornOpportunity, ScrapingAgent.UNICORN_DISCOUNT_THRESHOLD,
      ScrapingAgent.UNICORN_CONFIDENCE_THRESHOLD, ScrapingAgent.UNICORN_ZSCORE_THRESHOLD]
    split_ifs <;> simp_all

/-- Re-filtering a window-filtered timestamp list at a later time is the same
as filtering the original list at that later time: anything stale at `t1`
stays stale at `t2 ≥ t1`. -/
lemma filter_filter_window {t1 t2 : ℕ} (h : t1 ≤ t2) (l : List ℕ) :
    (l.filter (fun ts => decide (t1 - ts < ScrapingAgent.CIRCUIT_BREAKER_WINDOW_MS))).filter
        (fun ts => decide (t2 - ts < ScrapingAgent.CIRCUIT_BREAKER_WINDOW_MS)) =
      l.filter (fun ts => decide (t2 - ts < ScrapingAgent.CIRCUIT_BREAKER_WINDOW_MS)) := by
  rw [List.filter_filter]
  refine List.filter_congr ?_
  intro x _
  by_cases hx : t2 - x < ScrapingAgent.CIRCUIT_BREAKER_WINDOW_MS
  · have h1 : t1 - x < ScrapingAgent.CIRCUIT_BREAKER_WINDOW_MS := by
      have : t1 - x ≤ t2 - x := Nat.sub_le_sub_right h x
      omega
    simp [hx, h1]
  · simp [hx]

/-- The timestamp list `reportAll` stores for a model, filtered at any time
at or after every report, is the window filter of the full report trace. -/
lemma reportAll_filter (m : String) :
    ∀ (ts : List ℕ), List.Sorted (· ≤ ·) ts →
    ∀ (prev : List ℕ) (ec : ScrapingAgent.ErrorCounts), ec m = some prev →
    (∀ x ∈ prev, ∀ y ∈ ts, x ≤ y) →
    ∀ t, (∀ x ∈ prev, x ≤ t) → (∀ x ∈ ts, x ≤ t) →
    ∃ L, ScrapingAgent.reportAll m ts ec m = some L ∧
      L.filter (fun x => decide (t - x < ScrapingAgent.CIRCUIT_BREAKER_WINDOW_MS)) =
        (prev ++ ts).filter (fun x => decide (t - x < ScrapingAgent.CIRCUIT_BREAKER_WINDOW_MS)) := by
  intro ts
  induction ts with
  | nil =>
    intro _ prev ec hec _ t _ _
    exact ⟨prev, hec, by simp⟩
  | cons t0 rest ih =>
    intro hs prev ec hec hprev t hprevt hts
    have hs2 := List.sorted_cons.mp hs
    have hstep : ScrapingAgent.reportAll m (t0 :: rest) ec =
        ScrapingAgent.reportAll m rest (ScrapingAgent.reportModelError t0 m ec) := rfl
    set prev2 :=
      prev.filter (fun x => decide (t0 - x < ScrapingAgent.CIRCUIT_BREAKER_WINDOW_MS)) ++ [t0]
      with hprev2
    have hec2 : ScrapingAgent.reportModelError t0 m ec m = some prev2 := by
      simp [ScrapingAgent.reportModelError, hec, hprev2]
    have hmem2 : ∀ x ∈ prev2, ∀ y ∈ rest, x ≤ y := by
      intro x hx y hy
      rcases List.mem_append.mp hx with hx | hx
      · exact hprev x (List.mem_of_mem_filter hx) y (List.mem_cons_of_mem _ hy)
      · rcases List.mem_singleton.mp hx with rfl
        exact hs2.1 y hy
    have hprevt2 : ∀ x ∈ prev2, x ≤ t := by
      intro x hx
      rcases List.mem_append.mp hx with hx | hx
      · exact hprevt x (List.mem_of_mem_filter hx)
      · rcases List.mem_singleton.mp hx with rfl
        exact hts _ (List.mem_cons_self _ _)
    have hts2 : ∀ x ∈ rest, x ≤ t := fun x hx => hts x (List.mem_cons_of_mem _ hx)
    obtain ⟨L, hL, hLfilter⟩ :=
      ih hs2.2 prev2 (ScrapingAgent.reportModelError t0 m ec) hec2 hmem2 t hprevt2 hts2
    refine ⟨L, by rw [hstep]; exact hL, ?_⟩
    rw [hLfilter, hprev2]
    have ht0t : t0 ≤ t := hts t0 (List.mem_cons_self _ _)
    simp only [List.filter_append]
    rw [filter_filter_window ht0t prev]
    rcases Nat.lt_or_ge (t - t0) ScrapingAgent.CIRCUIT_BREAKER_WINDOW_MS with hd | hd
    · simp [List.filter_cons, hd]
    · simp [List.filter_cons, not_lt.mpr hd]

/-- C8: the model circuit is open exactly when at least
`CIRCUIT_BREAKER_THRESHOLD` (3) error reports fall within the last
`CIRCUIT_BREAKER_WINDOW_MS` (300000 ms) before the query time; consequently
any query more than the window past every failure — in particular
`CIRCUIT_BREAKER_WINDOW_MS + 1` ms after opening with no new failures —
finds the circuit closed again. -/
theorem circuit_breaker_window (m : String) (ts : List ℕ)
    (hs : List.Sorted (· ≤ ·) ts) :
    (∀ t, (∀ x ∈ ts, x ≤ t) →
      ((ScrapingAgent.isCircuitBroken t m
          (ScrapingAgent.reportAll m ts ScrapingAgent.emptyErrorCounts)).1 = true ↔
        ScrapingAgent.CIRCUIT_BREAKER_THRESHOLD ≤
          (ts.filter (fun x =>
            decide (t - x < ScrapingAgent.CIRCUIT_BREAKER_WINDOW_MS))).length))
    ∧ (∀ t, (∀ x ∈ ts, x + ScrapingAgent.CIRCUIT_BREAKER_WINDOW_MS < t) →
        (ScrapingAgent.isCircuitBroken t m
          (ScrapingAgent.reportAll m ts ScrapingAgent.emptyErrorCounts)).1 = false) := by
  have main : ∀ t, (∀ x ∈ ts, x ≤ t) →
      ((ScrapingAgent.isCircuitBroken t m
          (ScrapingAgent.reportAll m ts ScrapingAgent.emptyErrorCounts)).1 = true ↔
        ScrapingAgent.CIRCUIT_BREAKER_THRESHOLD ≤
          (ts.filter (fun x =>
            decide (t - x < ScrapingAgent.CIRCUIT_BREAKER_WINDOW_MS))).length) := by
    intro t hts
    cases ts with
    | nil =>
      simp [ScrapingAgent.reportAll, ScrapingAgent.isCircuitBroken,
        ScrapingAgent.emptyErrorCounts, ScrapingAgent.CIRCUIT_BREAKER_THRESHOLD]
    | cons t0 rest =>
      have hs2 := List.sorted_cons.mp hs
      have hstep : ScrapingAgent.reportAll m (t0 :: rest) ScrapingAgent.emptyErrorCounts =
          ScrapingAgent.reportAll m rest
            (ScrapingAgent.reportModelError t0 m ScrapingAgent.emptyErrorCounts) := rfl
      have hec2 : ScrapingAgent.reportModelError t0 m ScrapingAgent.emptyErrorCounts m =
          some [t0] := by
        simp [ScrapingAgent.reportModelError, ScrapingAgent.emptyErrorCounts]
      obtain ⟨L, hL, hLfilter⟩ :=
        reportAll_filter m rest hs2.2 [t0]
          (ScrapingAgent.reportModelError t0 m ScrapingAgent.emptyErrorCounts) hec2
          (by intro x hx y hy; rcases List.mem_singleton.mp hx with rfl; exact hs2.1 y hy)
          t
          (by intro x hx; rcases List.mem_singleton.mp hx with rfl
              exact hts _ (List.mem_cons_self _ _))
          (fun x hx => hts x (List.mem_cons_of_mem _ hx))
      have hfull : L.filter (fun x =>
          decide (t - x < ScrapingAgent.CIRCUIT_BREAKER_WINDOW_MS)) =
          (t0 :: rest).filter (fun x =>
            decide (t - x < ScrapingAgent.CIRCUIT_BREAKER_WINDOW_MS)) := by
        rw [hLfilter]; rfl
      rw [hstep]
      simp only [ScrapingAgent.isCircuitBroken, hL]
      rw [hfull]
      by_cases hempty : ((t0 :: rest).filter (fun x =>
          decide (t - x < ScrapingAgent.CIRCUIT_BREAKER_WINDOW_MS))).isEmpty
      · simp [hempty, List.isEmpty_iff.mp hempty, ScrapingAgent.CIRCUIT_BREAKER_THRESHOLD]
      · simp [hempty]
  refine ⟨main, ?_⟩
  intro t ht
  have hts : ∀ x ∈ ts, x ≤ t := fun x hx => le_of_lt (by have := ht x hx; omega)
  have hnone : ts.filter (fun x =>
      decide (t - x < ScrapingAgent.CIRCUIT_BREAKER_WINDOW_MS)) = [] := by
    refine List.filter_eq_nil_iff.mpr ?_
    intro x hx
    have := ht x hx
    simp only [decide_eq_true_eq]
    omega
  have := main t hts
  rw [hnone] at this
  simp only [List.length_nil] at this
  rcases Bool.eq_false_or_eq_true (ScrapingAgent.isCircuitBroken t m
      (ScrapingAgent.reportAll m ts ScrapingAgent.emptyErrorCounts)).1 with hb | hb
  · exact absurd (this.mp hb) (by simp [ScrapingAgent.CIRCUIT_BREAKER_THRESHOLD])
  · exact hb

/-- Witness for C8 at a concrete trace: three reports at 1000, 2000 and 3000
open the circuit at time 3000. -/
theorem circuit_breaker_window_witness :
    (ScrapingAgent.isCircuitBroken 3000 "google/gemini-flash-1.5-8b"
      (ScrapingAgent.reportAll "google/gemini-flash-1.5-8b" [1000, 2000, 3000]
        ScrapingAgent.emptyErrorCounts)).1 = true :=
  ((circuit_breaker_window "google/gemini-flash-1.5-8b" [1000, 2000, 3000]
    (by decide)).1 3000 (by decide)).mpr (by decide)

/-- C2: when a handler invocation for a stream entry fails, the consumer bumps
the in-process per-entry failure counter; below `max_retries` it breaks out of
the batch without advancing the cursor or touching the DLQ (so the entry is
re-read next iteration), and on the attempt at which the counter reaches
`max_retries` it appends a record carrying the original stream, entry id,
payload and error to the DLQ stream named `dlq.` ++ the stream, clears the
counter and advances the cursor past the entry, continuing with the batch. -/
theorem consumer_retry_then_dlq {α : Type} (streamName : String) (maxRetries : ℕ)
    (parse : String → Option α) (handler : α → ℕ → Option String)
    (e : StreamConsumer.StreamEntry) (rest : List StreamConsumer.StreamEntry)
    (s : StreamConsumer.ConsumerState) (p : String) (a : α) (err : String)
    (hdata : e.data = some p) (hparse : parse p = some a)
    (hfail : handler a (s.failures e.id) = some err) :
    (s.failures e.id + 1 < maxRetries →
      StreamConsumer.runEntries streamName maxRetries parse handler (e :: rest) s =
        { s with failures := fun i => if i = e.id then s.failures e.id + 1 else s.failures i })
    ∧ (maxRetries ≤ s.failures e.id + 1 →
      StreamConsumer.runEntries streamName maxRetries parse handler (e :: rest) s =
        StreamConsumer.runEntries streamName maxRetries parse handler rest
          { cursor := e.id,
            failures := fun i => if i = e.id then 0 else s.failures i,
            dlq := s.dlq ++
              [{ dlqStream := "dlq." ++ streamName, stream := streamName,
                 entryId := e.id, payload := e.data, error := err }] }) := by
  constructor
  · intro hlt
    simp only [StreamConsumer.runEntries, hdata, hparse, hfail]
    rw [if_neg (by omega)]
  · intro hge
    simp only [StreamConsumer.runEntries, hdata, hparse, hfail]
    rw [if_pos hge]
    simp [StreamConsumer.moveToDLQ]

/-- Witness for C2: a handler that always throws, on the entry with id 7.
From a fresh state the first failure only bumps the counter; from a state
with four recorded failures the fifth attempt dead-letters and advances. -/
theorem consumer_retry_then_dlq_witness :
    (StreamConsumer.runEntries "price:anomaly:detected" 5 (fun _ : String => some ())
        (fun _ _ => some "boom") [{ id := 7, data := some "x" }]
        StreamConsumer.initialState =
      { StreamConsumer.initialState with
        failures := fun i => if i = 7 then 0 + 1 else (0 : ℕ) })
    ∧ (StreamConsumer.runEntries "price:anomaly:detected" 5 (fun _ : String => some ())
        (fun _ _ => some "boom") [{ id := 7, data := some "x" }]
        { cursor := 0, failures := fun i => if i = 7 then 4 else 0, dlq := [] } =
      StreamConsumer.runEntries "price:anomaly:detected" 5 (fun _ : String => some ())
        (fun _ _ => some "boom") []
        { cursor := 7,
          failures := fun i => if i = 7 then 0 else
            (if i = 7 then 4 else 0 : ℕ),
          dlq := [] ++
            [{ dlqStream := "dlq.price:anomaly:detected", stream := "price:anomaly:detected",
               entryId := 7, payload := some "x", error := "boom" }] }) := by
  constructor
  · exact (consumer_retry_then_dlq "price:anomaly:detected" 5 (fun _ => some ())
      (fun _ _ => some "boom") { id := 7, data := some "x" } [] StreamConsumer.initialState
      "x" () "boom" rfl rfl rfl).1 (by decide)
  · exact (consumer_retry_then_dlq "price:anomaly:detected" 5 (fun _ => some ())
      (fun _ _ => some "boom") { id := 7, data := some "x" } []
      { cursor := 0, failures := fun i => if i = 7 then 4 else 0, dlq := [] }
      "x" () "boom" rfl rfl (by norm_num)).2 (by norm_num)

/-- Counterexample to C3: the claim says every malformed payload — missing
*or unparseable* — advances the cursor immediately, is never retried and
never reaches the DLQ.  Take the stream holding the single entry id 1 with
payload `"oops"`, which `JSON.parse` throws on (embedded as the parse oracle
returning `none`), and a handler that always succeeds.  After one loop
iteration the cursor is still 0 (not advanced past 1) and the failure
counter reads 1 (a retry is pending); after five iterations the entry sits
in the DLQ even though the handler never failed. -/
theorem malformed_unparseable_counterexample :
    ((StreamConsumer.runLoop "price:anomaly:detected" 5 50
        (fun _ : String => (none : Option Unit)) (fun _ _ => none)
        [{ id := 1, data := some "oops" }] 1 StreamConsumer.initialState).cursor = 0
      ∧ (StreamConsumer.runLoop "price:anomaly:detected" 5 50
          (fun _ : String => (none : Option Unit)) (fun _ _ => none)
          [{ id := 1, data := some "oops" }] 1 StreamConsumer.initialState).failures 1 = 1)
    ∧ (StreamConsumer.runLoop "price:anomaly:detected" 5 50
        (fun _ : String => (none : Option Unit)) (fun _ _ => none)
        [{ id := 1, data := some "oops" }] 5 StreamConsumer.initialState).dlq =
      [{ dlqStream := "dlq.price:anomaly:detected", stream := "price:anomaly:detected",
         entryId := 1, payload := some "oops", error := StreamConsumer.parseError }] := by
  refine ⟨⟨?_, ?_⟩, ?_⟩ <;> rfl

/-- C3 as amended: an entry whose payload *field is missing* is warned about
and skipped, the cursor advancing immediately with no retry and no DLQ
record; an entry whose payload is present but unparseable is instead treated
like a thrown handler error — retried without cursor advance while the
counter is below `max_retries`, then dead-lettered with the parse error and
skipped — so an entry can reach the DLQ without any handler failure. -/
theorem malformed_payload_handling {α : Type} (streamName : String) (maxRetries : ℕ)
    (parse : String → Option α) (handler : α → ℕ → Option String)
    (e : StreamConsumer.StreamEntry) (rest : List StreamConsumer.StreamEntry)
    (s : StreamConsumer.ConsumerState) :
    (e.data = none →
      StreamConsumer.runEntries streamName maxRetries parse handler (e :: rest) s =
        StreamConsumer.runEntries streamName maxRetries parse handler rest
          { s with cursor := e.id })
    ∧ (∀ p, e.data = some p → parse p = none →
        (s.failures e.id + 1 < maxRetries →
          StreamConsumer.runEntries streamName maxRetries parse handler (e :: rest) s =
            { s with
              failures := fun i => if i = e.id then s.failures e.id + 1 else s.failures i })
        ∧ (maxRetries ≤ s.failures e.id + 1 →
          StreamConsumer.runEntries streamName maxRetries parse handler (e :: rest) s =
            StreamConsumer.runEntries streamName maxRetries parse handler rest
              { cursor := e.id,
                failures := fun i => if i = e.id then 0 else s.failures i,
                dlq := s.dlq ++
                  [{ dlqStream := "dlq." ++ streamName, stream := streamName,
                     entryId := e.id, payload := e.data,
                     error := StreamConsumer.parseError }] })) := by
  constructor
  · intro hnone
    simp only [StreamConsumer.runEntries, hnone]
  · intro p hdata hparse
    constructor
    · intro hlt
      simp only [StreamConsumer.runEntries, hdata, hparse]
      rw [if_neg (by omega)]
    · intro hge
      simp only [StreamConsumer.runEntries, hdata, hparse]
      rw [if_pos hge]
      simp [StreamConsumer.moveToDLQ]

/-- Witness for the amended C3: a missing payload on entry 2 skips ahead; an
unparseable payload on entry 1 bumps the counter on a fresh state. -/
theorem malformed_payload_handling_witness :
    (StreamConsumer.runEntries "price:anomaly:detected" 5
        (fun _ : String => (none : Option Unit)) (fun _ _ => none)
        [{ id := 2, data := none }] StreamConsumer.initialState =
      StreamConsumer.runEntries "price:anomaly:detected" 5
        (fun _ : String => (none : Option Unit)) (fun _ _ => none) []
        { StreamConsumer.initialState with cursor := 2 })
    ∧ (StreamConsumer.runEntries "price:anomaly:detected" 5
        (fun _ : String => (none : Option Unit)) (fun _ _ => none)
        [{ id := 1, data := some "oops" }] StreamConsumer.initialState =
      { StreamConsumer.initialState with
        failures := fun i => if i = 1 then 0 + 1 else (0 : ℕ) }) := by
  constructor
  · exact (malformed_payload_handling "price:anomaly:detected" 5
      (fun _ => none) (fun _ _ => none) { id := 2, data := none } []
      StreamConsumer.initialState).1 rfl
  · exact ((malformed_payload_handling "price:anomaly:detected" 5
      (fun _ => none) (fun _ _ => none) { id := 1, data := some "oops" } []
      StreamConsumer.initialState).2 "oops" rfl rfl).1 (by decide)

/-- C1: processing a confirmed glitch is idempotent at the dispatch level —
one complete processing leaves the glitch-level dedup key set, any further
processing of an entry with the same glitch id is the identity (nothing is
broadcast, nothing is scheduled), and N ≥ 1 processings equal one; in
particular whenever the dedup key is already set, processing sends and
schedules nothing. -/
theorem dedup_idempotent (glitch : Dispatcher.ValidatedGlitch) (s : Dispatcher.DispatchState) :
    (KVStore.getKey (Dispatcher.processConfirmedGlitch glitch s).kv
        (Dispatcher.notifiedKey glitch.id)).isSome = true
    ∧ Dispatcher.processConfirmedGlitch glitch (Dispatcher.processConfirmedGlitch glitch s) =
        Dispatcher.processConfirmedGlitch glitch s
    ∧ (∀ n, Dispatcher.processNTimes glitch (n + 1) s =
        Dispatcher.processConfirmedGlitch glitch s)
    ∧ (∀ s2 : Dispatcher.DispatchState,
        KVStore.getKey s2.kv (Dispatcher.notifiedKey glitch.id) ≠ none →
          Dispatcher.processConfirmedGlitch glitch s2 = s2) := by
  have hskip : ∀ s2 : Dispatcher.DispatchState,
      KVStore.getKey s2.kv (Dispatcher.notifiedKey glitch.id) ≠ none →
        Dispatcher.processConfirmedGlitch glitch s2 = s2 := by
    intro s2 h
    rcases hv : KVStore.getKey s2.kv (Dispatcher.notifiedKey glitch.id) with _ | v
    · exact absurd hv h
    · simp [Dispatcher.processConfirmedGlitch, hv]
  have hkey : ∀ s2 : Dispatcher.DispatchState,
      (KVStore.getKey (Dispatcher.processConfirmedGlitch glitch s2).kv
        (Dispatcher.notifiedKey glitch.id)).isSome = true := by
    intro s2
    rcases hv : KVStore.getKey s2.kv (Dispatcher.notifiedKey glitch.id) with _ | v
    · simp only [Dispatcher.processConfirmedGlitch, hv]
      simp [KVStore.getKey, KVStore.setKey]
    · rw [hskip s2 (by simp [hv])]
      simp [hv]
  have hstep : ∀ s2 : Dispatcher.DispatchState,
      Dispatcher.processConfirmedGlitch glitch (Dispatcher.processConfirmedGlitch glitch s2) =
        Dispatcher.processConfirmedGlitch glitch s2 := by
    intro s2
    exact hskip _ (Option.ne_none_iff_isSome.mpr (hkey s2))
  refine ⟨hkey s, hstep s, ?_, hskip⟩
  have hiter : ∀ n (s2 : Dispatcher.DispatchState),
      Dispatcher.processNTimes glitch (n + 1) s2 =
        Dispatcher.processConfirmedGlitch glitch s2 := by
    intro n
    induction n with
    | zero => intro s2; rfl
    | succ k ih =>
      intro s2
      calc Dispatcher.processNTimes glitch (k + 2) s2
          = Dispatcher.processNTimes glitch (k + 1)
              (Dispatcher.processConfirmedGlitch glitch s2) := rfl
        _ = Dispatcher.processConfirmedGlitch glitch
              (Dispatcher.processConfirmedGlitch glitch s2) := ih _
        _ = Dispatcher.processConfirmedGlitch glitch s2 := hstep s2
  exact fun n => hiter n s

/-- Witness for C1: with the dedup key for glitch `g1` already present,
processing the glitch again is the identity. -/
theorem dedup_idempotent_witness :
    Dispatcher.processConfirmedGlitch
      { id := "g1", anomalyId := "a1", profitMargin := 50,
        product := { price := 10, category := none, retailer := "amazon" } }
      { kv := KVStore.setKey KVStore.emptyKV (Dispatcher.notifiedKey "g1") "1"
          (some Dispatcher.NOTIFY_DEDUP_TTL_SECONDS),
        jobs := [], broadcasts := [] } =
      { kv := KVStore.setKey KVStore.emptyKV (Dispatcher.notifiedKey "g1") "1"
          (some Dispatcher.NOTIFY_DEDUP_TTL_SECONDS),
        jobs := [], broadcasts := [] } :=
  (dedup_idempotent
    { id := "g1", anomalyId := "a1", profitMargin := 50,
      product := { price := 10, category := none, retailer := "amazon" } }
    { kv := KVStore.setKey KVStore.emptyKV (Dispatcher.notifiedKey "g1") "1"
        (some Dispatcher.NOTIFY_DEDUP_TTL_SECONDS),
      jobs := [], broadcasts := [] }).2.2.2 _ (by decide)

/-- Embedding of `Queue.add` with a job id absent from the queue appends the job. -/
lemma addNotificationJob_fresh (glitch : Dispatcher.ValidatedGlitch)
    (tiers : List Subscription.Tier) (delay : ℕ) (q : List Dispatcher.NotificationJob)
    (h : ∀ j ∈ q, j.jobId ≠ Dispatcher.jobIdFor glitch.id tiers) :
    Dispatcher.addNotificationJob glitch tiers delay q =
      q ++ [{ jobId := Dispatcher.jobIdFor glitch.id tiers, glitchId := glitch.id,
              targetTiers := tiers, delayMs := delay }] := by
  have hfalse : q.any (fun j => j.jobId = Dispatcher.jobIdFor glitch.id tiers) = false := by
    rw [List.any_eq_false]
    intro j hj
    simpa using h j hj
  simp [Dispatcher.addNotificationJob, hfalse]

/-- Job ids built from the same glitch id and different joined tier suffixes
differ. -/
lemma jobIdFor_ne_of_suffix_ne (gid : String) (t1 t2 : List Subscription.Tier)
    (h : String.intercalate "-" (t1.map Subscription.tierName) ≠
      String.intercalate "-" (t2.map Subscription.tierName)) :
    Dispatcher.jobIdFor gid t1 ≠ Dispatcher.jobIdFor gid t2 := by
  intro hEq
  apply h
  have hd := congrArg String.data hEq
  simp only [Dispatcher.jobIdFor, String.data_append] at hd
  exact String.ext (List.append_cancel_left hd)

/-- C4: a confirmed glitch processed for the first time schedules exactly
three delayed per-subscriber jobs, one per tier group — pro and elite at
0 ms, starter at 86400000 ms (24 h), free at 259200000 ms (72 h). -/
theorem dispatch_three_tier_jobs (glitch : Dispatcher.ValidatedGlitch)
    (s : Dispatcher.DispatchState)
    (hfresh : KVStore.getKey s.kv (Dispatcher.notifiedKey glitch.id) = none)
    (h1 : ∀ j ∈ s.jobs,
      j.jobId ≠ Dispatcher.jobIdFor glitch.id [Subscription.Tier.pro, Subscription.Tier.elite])
    (h2 : ∀ j ∈ s.jobs, j.jobId ≠ Dispatcher.jobIdFor glitch.id [Subscription.Tier.starter])
    (h3 : ∀ j ∈ s.jobs, j.jobId ≠ Dispatcher.jobIdFor glitch.id [Subscription.Tier.free]) :
    (Dispatcher.processConfirmedGlitch glitch s).jobs =
      s.jobs ++
        [{ jobId := Dispatcher.jobIdFor glitch.id
             [Subscription.Tier.pro, Subscription.Tier.elite],
           glitchId := glitch.id,
           targetTiers := [Subscription.Tier.pro, Subscription.Tier.elite], delayMs := 0 },
         { jobId := Dispatcher.jobIdFor glitch.id [Subscription.Tier.starter],
           glitchId := glitch.id,
           targetTiers := [Subscription.Tier.starter], delayMs := 86400000 },
         { jobId := Dispatcher.jobIdFor glitch.id [Subscription.Tier.free],
           glitchId := glitch.id,
           targetTiers := [Subscription.Tier.free], delayMs := 259200000 }] := by
  have hne21 : Dispatcher.jobIdFor glitch.id [Subscription.Tier.pro, Subscription.Tier.elite] ≠
      Dispatcher.jobIdFor glitch.id [Subscription.Tier.starter] :=
    jobIdFor_ne_of_suffix_ne glitch.id _ _ (by decide)
  have hne31 : Dispatcher.jobIdFor glitch.id [Subscription.Tier.pro, Subscription.Tier.elite] ≠
      Dispatcher.jobIdFor glitch.id [Subscription.Tier.free] :=
    jobIdFor_ne_of_suffix_ne glitch.id _ _ (by decide)
  have hne32 : Dispatcher.jobIdFor glitch.id [Subscription.Tier.starter] ≠
      Dispatcher.jobIdFor glitch.id [Subscription.Tier.free] :=
    jobIdFor_ne_of_suffix_ne glitch.id _ _ (by decide)
  have step1 := addNotificationJob_fresh glitch
    [Subscription.Tier.pro, Subscription.Tier.elite] 0 s.jobs h1
  have step2 := addNotificationJob_fresh glitch [Subscription.Tier.starter]
    (24 * 60 * 60 * 1000)
    (s.jobs ++
      [⟨Dispatcher.jobIdFor glitch.id [Subscription.Tier.pro, Subscription.Tier.elite],
        glitch.id, [Subscription.Tier.pro, Subscription.Tier.elite], 0⟩])
    (by
      intro j hj
      rcases List.mem_append.mp hj with hj | hj
      · exact h2 j hj
      · rcases List.mem_singleton.mp hj with rfl
        exact hne21)
  have step3 := addNotificationJob_fresh glitch [Subscription.Tier.free]
    (72 * 60 * 60 * 1000)
    ((s.jobs ++
      [⟨Dispatcher.jobIdFor glitch.id [Subscription.Tier.pro, Subscription.Tier.elite],
        glitch.id, [Subscription.Tier.pro, Subscription.Tier.elite], 0⟩]) ++
      [⟨Dispatcher.jobIdFor glitch.id [Subscription.Tier.starter],
        glitch.id, [Subscription.Tier.starter], 24 * 60 * 60 * 1000⟩])
    (by
      intro j hj
      rcases List.mem_append.mp hj with hj | hj
      · rcases List.mem_append.mp hj with hj | hj
        · exact h3 j hj
        · rcases List.mem_singleton.mp hj with rfl
          exact hne31
      · rcases List.mem_singleton.mp hj with rfl
        exact hne32)
  simp only [Dispatcher.processConfirmedGlitch, hfresh]
  rw [step1, step2, step3]
  simp [List.append_assoc]

/-- Witness for C4 at a concrete first-time glitch and an empty dispatch
state. -/
theorem dispatch_three_tier_jobs_witness :
    (Dispatcher.processConfirmedGlitch
      { id := "g1", anomalyId := "a1", profitMargin := 50,
        product := { price := 10, category := none, retailer := "amazon" } }
      { kv := KVStore.emptyKV, jobs := [], broadcasts := [] }).jobs =
      [] ++
        [{ jobId := Dispatcher.jobIdFor "g1"
             [Subscription.Tier.pro, Subscription.Tier.elite],
           glitchId := "g1",
           targetTiers := [Subscription.Tier.pro, Subscription.Tier.elite], delayMs := 0 },
         { jobId := Dispatcher.jobIdFor "g1" [Subscription.Tier.starter],
           glitchId := "g1",
           targetTiers := [Subscription.Tier.starter], delayMs := 86400000 },
         { jobId := Dispatcher.jobIdFor "g1" [Subscription.Tier.free],
           glitchId := "g1",
           targetTiers := [Subscription.Tier.free], delayMs := 259200000 }] :=
  dispatch_three_tier_jobs
    { id := "g1", anomalyId := "a1", profitMargin := 50,
      product := { price := 10, category := none, retailer := "amazon" } }
    { kv := KVStore.emptyKV, jobs := [], broadcasts := [] }
    rfl (by simp) (by simp) (by simp)

/-- Every send the per-user loop body pushes carries the id of the user, a
channel the preferences row enables, and a channel the tier of the user may
use. -/
lemma userSends_sound (glitch : Dispatcher.ValidatedGlitch)
    (user : SubscriberService.Subscriber) :
    ∀ snd ∈ SubscriberService.userSends glitch user,
      snd.userId = user.id ∧
      SubscriberService.channelEnabled user snd.channel = true ∧
      SubscriberService.tierAllows (user.subscriptionTier.getD Subscription.Tier.free)
        snd.channel = true := by
  intro snd hsnd
  rcases hpref : user.preferences with _ | p
  · simp [SubscriberService.userSends, hpref] at hsnd
  · simp only [SubscriberService.userSends, hpref, List.mem_append] at hsnd
    rcases hsnd with ((h | h) | h) | h
    · by_cases he : p.enableEmail
      · rw [if_pos he] at h
        rcases List.mem_singleton.mp h with rfl
        exact ⟨rfl, by simp [SubscriberService.channelEnabled, hpref, he],
          by simp [SubscriberService.tierAllows]⟩
      · rw [if_neg he] at h
        simp at h
    · by_cases hs : p.enableSMS
      · rw [if_pos hs] at h
        by_cases ha : Subscription.hasAccess (user.subscriptionTier.getD Subscription.Tier.free)
            Subscription.Tier.pro
        · rw [if_pos ha] at h
          rcases hph : user.phoneNumber with _ | phone
          · rw [hph] at h; simp at h
          · rw [hph] at h
            rcases List.mem_singleton.mp h with rfl
            exact ⟨rfl, by simp [SubscriberService.channelEnabled, hpref, hs],
              by simp [SubscriberService.tierAllows, ha]⟩
        · rw [if_neg ha] at h
          simp at h
      · rw [if_neg hs] at h
        simp at h
    · by_cases ht : p.enableTelegram
      · rw [if_pos ht] at h
        by_cases ha : Subscription.hasAccess (user.subscriptionTier.getD Subscription.Tier.free)
            Subscription.Tier.pro
        · rw [if_pos ha] at h
          rcases hcid : p.telegramChatId with _ | chatId
          · rw [hcid] at h; simp at h
          · rw [hcid] at h
            rcases List.mem_singleton.mp h with rfl
            exact ⟨rfl, by simp [SubscriberService.channelEnabled, hpref, ht],
              by simp [SubscriberService.tierAllows, ha]⟩
        · rw [if_neg ha] at h
          simp at h
      · rw [if_neg ht] at h
        simp at h
    · by_cases hw : p.enableWhatsApp
      · rw [if_pos hw] at h
        by_cases ha : Subscription.hasAccess (user.subscriptionTier.getD Subscription.Tier.free)
            Subscription.Tier.pro
        · rw [if_pos ha] at h
          rcases hph : user.phoneNumber with _ | phone
          · rw [hph] at h; simp at h
          · rw [hph] at h
            rcases List.mem_singleton.mp h with rfl
            exact ⟨rfl, by simp [SubscriberService.channelEnabled, hpref, hw],
              by simp [SubscriberService.tierAllows, ha]⟩
        · rw [if_neg ha] at h
          simp at h
      · rw [if_neg hw] at h
        simp at h

/-- The sends `notifyUser` emits are among the channel sends of the loop
body (the user may also be skipped entirely). -/
lemma notifyUser_sends_subset (sendOk : String → SubscriberService.Channel → Bool)
    (glitch : Dispatcher.ValidatedGlitch) (user : SubscriberService.Subscriber)
    (kv : KVStore.KV) :
    ∀ snd ∈ (SubscriberService.notifyUser sendOk glitch user kv).1,
      snd ∈ SubscriberService.userSends glitch user := by
  intro snd hsnd
  by_cases hm : SubscriberService.matchesPreferences glitch user.preferences
  · simp only [SubscriberService.notifyUser, hm, Bool.not_true] at hsnd
    rcases hv : KVStore.getKey kv (SubscriberService.userDedupKey user.id glitch.id) with _ | v
    · simpa [hv] using hsnd
    · simp [hv] at hsnd
  · simp [SubscriberService.notifyUser, hm] at hsnd

/-- Sends accumulated by the subscriber fold come from the accumulator or
from the channel sends of some listed user. -/
lemma notifyFold_sends (sendOk : String → SubscriberService.Channel → Bool)
    (glitch : Dispatcher.ValidatedGlitch) :
    ∀ (us : List SubscriberService.Subscriber)
      (acc : List SubscriberService.Send × KVStore.KV) (snd : SubscriberService.Send),
      snd ∈ (us.foldl
        (fun acc user =>
          let res := SubscriberService.notifyUser sendOk glitch user acc.2
          (acc.1 ++ res.1, res.2)) acc).1 →
      snd ∈ acc.1 ∨ ∃ u ∈ us, snd ∈ SubscriberService.userSends glitch u := by
  intro us
  induction us with
  | nil => intro acc snd hsnd; exact Or.inl hsnd
  | cons u rest ih =>
    intro acc snd hsnd
    rcases ih _ snd hsnd with hacc | ⟨u2, hu2, hs2⟩
    · rcases List.mem_append.mp hacc with hacc | hres
      · exact Or.inl hacc
      · exact Or.inr ⟨u, List.mem_cons_self _ _, notifyUser_sends_subset _ _ _ _ snd hres⟩
    · exact Or.inr ⟨u2, List.mem_cons_of_mem _ hu2, hs2⟩

/-- C5: a channel provider is invoked only for an eligible subscriber whose
preferences enable the channel and whose tier the channel gate authorizes
(email for every tier; SMS, Telegram and WhatsApp only from pro up); in
particular a starter user with SMS enabled never receives an SMS, while the
same user at pro tier does. -/
theorem tier_channel_gating :
    (∀ (sendOk : String → SubscriberService.Channel → Bool)
        (glitch : Dispatcher.ValidatedGlitch)
        (targetTiers : Option (List Subscription.Tier))
        (users : List SubscriberService.Subscriber) (kv : KVStore.KV)
        (snd : SubscriberService.Send),
      snd ∈ (SubscriberService.notifyEligibleSubscribers sendOk glitch
          targetTiers users kv).1 →
        ∃ u ∈ SubscriberService.eligibleQuery users targetTiers,
          snd.userId = u.id ∧
          SubscriberService.channelEnabled u snd.channel = true ∧
          SubscriberService.tierAllows (u.subscriptionTier.getD Subscription.Tier.free)
            snd.channel = true)
    ∧ (∀ (sendOk : String → SubscriberService.Channel → Bool)
        (glitch : Dispatcher.ValidatedGlitch) (user : SubscriberService.Subscriber)
        (kv : KVStore.KV),
      user.subscriptionTier = some Subscription.Tier.starter →
        ∀ snd ∈ (SubscriberService.notifyUser sendOk glitch user kv).1,
          snd.channel ≠ SubscriberService.Channel.sms)
    ∧ (∀ (sendOk : String → SubscriberService.Channel → Bool)
        (glitch : Dispatcher.ValidatedGlitch) (user : SubscriberService.Subscriber)
        (kv : KVStore.KV) (prefs : SubscriberService.Prefs) (phone : String),
      user.subscriptionTier = some Subscription.Tier.pro →
      user.preferences = some prefs → prefs.enableSMS = true →
      user.phoneNumber = some phone →
      SubscriberService.matchesPreferences glitch user.preferences = true →
      KVStore.getKey kv (SubscriberService.userDedupKey user.id glitch.id) = none →
        (⟨user.id, SubscriberService.Channel.sms, phone⟩ : SubscriberService.Send) ∈
          (SubscriberService.notifyUser sendOk glitch user kv).1) := by
  refine ⟨?_, ?_, ?_⟩
  · intro sendOk glitch targetTiers users kv snd hsnd
    rcases notifyFold_sends sendOk glitch (SubscriberService.eligibleQuery users targetTiers)
        ([], kv) snd hsnd with habs | ⟨u, hu, hs⟩
    · simp at habs
    · exact ⟨u, hu, userSends_sound glitch u snd hs⟩
  · intro sendOk glitch user kv htier snd hsnd heq
    have hsound := userSends_sound glitch user snd
      (notifyUser_sends_subset sendOk glitch user kv snd hsnd)
    rw [htier, heq] at hsound
    have := hsound.2.2
    simp [SubscriberService.tierAllows, Subscription.hasAccess,
      Subscription.getTierLevel] at this
  · intro sendOk glitch user kv prefs phone htier hpref hsms hphone hmatch hded
    simp only [SubscriberService.notifyUser, hmatch, Bool.not_true, Bool.false_eq_true,
      if_false, hded]
    simp [SubscriberService.userSends, hpref, hsms, hphone, htier,
      Subscription.hasAccess, Subscription.getTierLevel]

/-- Witness for C5: a pro subscriber with SMS enabled, a phone number, no
preferences restrictions and no dedup entry gets an SMS invocation. -/
theorem tier_channel_gating_witness :
    (⟨"u1", SubscriberService.Channel.sms, "+15551234567"⟩ : SubscriberService.Send) ∈
      (SubscriberService.notifyUser (fun _ _ => true)
        { id := "g1", anomalyId := "a1", profitMargin := 50,
          product := { price := 10, category := none, retailer := "amazon" } }
        { id := "u1", email := "u1st.example", phoneNumber := some "+15551234567",
          subscriptionStatus := "active", subscriptionTier := some Subscription.Tier.pro,
          preferences := some
            { categories := [], minProfitMargin := 0, minPrice := none, maxPrice := none,
              retailers := [], enableEmail := false, enableSMS := true,
              enableTelegram := false, enableWhatsApp := false, telegramChatId := none } }
        KVStore.emptyKV).1 :=
  tier_channel_gating.2.2 (fun _ _ => true)
    { id := "g1", anomalyId := "a1", profitMargin := 50,
      product := { price := 10, category := none, retailer := "amazon" } }
    { id := "u1", email := "u1st.example", phoneNumber := some "+15551234567",
      subscriptionStatus := "active", subscriptionTier := some Subscription.Tier.pro,
      preferences := some
        { categories := [], minProfitMargin := 0, minPrice := none, maxPrice := none,
          retailers := [], enableEmail := false, enableSMS := true,
          enableTelegram := false, enableWhatsApp := false, telegramChatId := none } }
    KVStore.emptyKV
    { categories := [], minProfitMargin := 0, minPrice := none, maxPrice := none,
      retailers := [], enableEmail := false, enableSMS := true,
      enableTelegram := false, enableWhatsApp := false, telegramChatId := none }
    "+15551234567" rfl rfl rfl rfl (by decide) rfl

/-- C6: starting from a state where the per-glitch dedup key of the user is
unset, the key ends up set — with value `"1"` and the 7-day TTL — exactly
when at least one of the attempted channel sends of the user succeeded; when
every channel fails (or none is attempted) it remains unset. -/
theorem user_dedup_iff_success (sendOk : String → SubscriberService.Channel → Bool)
    (glitch : Dispatcher.ValidatedGlitch) (user : SubscriberService.Subscriber)
    (kv : KVStore.KV)
    (hunset : kv (SubscriberService.userDedupKey user.id glitch.id) = none) :
    ((SubscriberService.notifyUser sendOk glitch user kv).2
        (SubscriberService.userDedupKey user.id glitch.id) =
        some ("1", some (86400 * 7)) ↔
      ∃ snd ∈ (SubscriberService.notifyUser sendOk glitch user kv).1,
        sendOk snd.userId snd.channel = true)
    ∧ ((∀ snd ∈ (SubscriberService.notifyUser sendOk glitch user kv).1,
        sendOk snd.userId snd.channel = false) →
      (SubscriberService.notifyUser sendOk glitch user kv).2
        (SubscriberService.userDedupKey user.id glitch.id) = none) := by
  have hget : KVStore.getKey kv (SubscriberService.userDedupKey user.id glitch.id) = none := by
    simp [KVStore.getKey, hunset]
  by_cases hm : SubscriberService.matchesPreferences glitch user.preferences
  · simp only [SubscriberService.notifyUser, hm, Bool.not_true, Bool.false_eq_true,
      if_false, hget]
    by_cases hany : (SubscriberService.userSends glitch user).any
        (fun snd => sendOk snd.userId snd.channel)
    · constructor
      · simp only [hany, if_pos]
        constructor
        · intro _
          simpa [List.any_eq_true] using hany
        · intro _
          simp [KVStore.setKey]
      · intro hall
        rcases List.any_eq_true.mp hany with ⟨snd, hsnd, hok⟩
        exact absurd (hall snd hsnd) (by simp [hok])
    · have hany2 : (SubscriberService.userSends glitch user).any
          (fun snd => sendOk snd.userId snd.channel) = false := by
        simpa using hany
      simp only [hany2]
      constructor
      · rw [if_neg (by simp)]
        rw [hunset]
        constructor
        · intro h; exact absurd h (by simp)
        · intro h
          rcases h with ⟨snd, hsnd, hok⟩
          have : (SubscriberService.userSends glitch user).any
              (fun snd => sendOk snd.userId snd.channel) = true :=
            List.any_eq_true.mpr ⟨snd, hsnd, hok⟩
          rw [hany2] at this
          cases this
      · intro _
        rw [if_neg (by simp)]
        exact hunset
  · have hm2 : SubscriberService.matchesPreferences glitch user.preferences = false := by
      simpa using hm
    simp [SubscriberService.notifyUser, hm2, hunset]

/-- Witness for C6 at a concrete user whose only enabled channel succeeds:
the dedup key is set with the 7-day TTL. -/
theorem user_dedup_iff_success_witness :
    (SubscriberService.notifyUser (fun _ _ => true)
      { id := "g1", anomalyId := "a1", profitMargin := 50,
        product := { price := 10, category := none, retailer := "amazon" } }
      { id := "u1", email := "u1st.example", phoneNumber := none,
        subscriptionStatus := "active", subscriptionTier := some Subscription.Tier.free,
        preferences := some
          { categories := [], minProfitMargin := 0, minPrice := none, maxPrice := none,
            retailers := [], enableEmail := true, enableSMS := false,
            enableTelegram := false, enableWhatsApp := false, telegramChatId := none } }
      KVStore.emptyKV).2 (SubscriberService.userDedupKey "u1" "g1") =
      some ("1", some (86400 * 7)) :=
  (user_dedup_iff_success (fun _ _ => true)
    { id := "g1", anomalyId := "a1", profitMargin := 50,
      product := { price := 10, category := none, retailer := "amazon" } }
    { id := "u1", email := "u1st.example", phoneNumber := none,
      subscriptionStatus := "active", subscriptionTier := some Subscription.Tier.free,
      preferences := some
        { categories := [], minProfitMargin := 0, minPrice := none, maxPrice := none,
          retailers := [], enableEmail := true, enableSMS := false,
          enableTelegram := false, enableWhatsApp := false, telegramChatId := none } }
    KVStore.emptyKV rfl).1.mpr
    ⟨⟨"u1", SubscriberService.Channel.email, "u1st.example"⟩, by decide, rfl⟩

/-- C10: in the preference filter an absent `maxPrice` defaults to 10000 —
a glitch priced above 10000 never passes the filter of a user whose
preferences row leaves `maxPrice` unset, and that user receives no channel
invocation for it — while a user with no preferences row at all passes every
filter. -/
theorem max_price_default (glitch : Dispatcher.ValidatedGlitch)
    (p : SubscriberService.Prefs) :
    (p.maxPrice = none → 10000 < glitch.product.price →
      SubscriberService.matchesPreferences glitch (some p) = false)
    ∧ (∀ (sendOk : String → SubscriberService.Channel → Bool)
        (user : SubscriberService.Subscriber) (kv : KVStore.KV),
      user.preferences = some p → p.maxPrice = none → 10000 < glitch.product.price →
        (SubscriberService.notifyUser sendOk glitch user kv).1 = [])
    ∧ SubscriberService.matchesPreferences glitch none = true := by
  have hfail : p.maxPrice = none → 10000 < glitch.product.price →
      SubscriberService.matchesPreferences glitch (some p) = false := by
    intro hmax hprice
    simp only [SubscriberService.matchesPreferences, hmax, SubscriberService.jsNumOr]
    split_ifs with h1 h2 h3 h4
    · rfl
    · rfl
    · rfl
    · rfl
    · exfalso
      apply h4
      simp [hprice]
  refine ⟨hfail, ?_, rfl⟩
  intro sendOk user kv hpref hmax hprice
  simp [SubscriberService.notifyUser, hpref, hfail hmax hprice]

/-- Witness for C10: a 10001-priced glitch is filtered out for a user whose
preferences row has no `maxPrice`, and passes for a user with no
preferences row. -/
theorem max_price_default_witness :
    (SubscriberService.notifyUser (fun _ _ => true)
      { id := "g2", anomalyId := "a2", profitMargin := 90,
        product := { price := 10001, category := none, retailer := "amazon" } }
      { id := "u2", email := "u2st.example", phoneNumber := none,
        subscriptionStatus := "active", subscriptionTier := some Subscription.Tier.pro,
        preferences := some
          { categories := [], minProfitMargin := 0, minPrice := none, maxPrice := none,
            retailers := [], enableEmail := true, enableSMS := false,
            enableTelegram := false, enableWhatsApp := false, telegramChatId := none } }
      KVStore.emptyKV).1 = []
    ∧ SubscriberService.matchesPreferences
      { id := "g2", anomalyId := "a2", profitMargin := 90,
        product := { price := 10001, category := none, retailer := "amazon" } }
      none = true :=
  ⟨(max_price_default
      { id := "g2", anomalyId := "a2", profitMargin := 90,
        product := { price := 10001, category := none, retailer := "amazon" } }
      { categories := [], minProfitMargin := 0, minPrice := none, maxPrice := none,
        retailers := [], enableEmail := true, enableSMS := false,
        enableTelegram := false, enableWhatsApp := false, telegramChatId := none }).2.1
      (fun _ _ => true)
      { id := "u2", email := "u2st.example", phoneNumber := none,
        subscriptionStatus := "active", subscriptionTier := some Subscription.Tier.pro,
        preferences := some
          { categories := [], minProfitMargin := 0, minPrice := none, maxPrice := none,
            retailers := [], enableEmail := true, enableSMS := false,
            enableTelegram := false, enableWhatsApp := false, telegramChatId := none } }
      KVStore.emptyKV rfl rfl (by norm_num),
    (max_price_default
      { id := "g2", anomalyId := "a2", profitMargin := 90,
        product := { price := 10001, category := none, retailer := "amazon" } }
      { categories := [], minProfitMargin := 0, minPrice := none, maxPrice := none,
        retailers := [], enableEmail := true, enableSMS := false,
        enableTelegram := false, enableWhatsApp := false, telegramChatId := none }).2.2⟩

/-- Counterexample to C9: the claim says a selection call over a pool whose
circuits are all open resets the *earliest-opened* circuit to half-open and
returns *that* model.  In the scraping-agent router, put all five
`FREE_MODELS` over the error threshold with the Llama circuit tripped
earliest (`allBrokenCounts`): `selectStandardModel` nevertheless returns the
first pool entry (Gemini), which is not the earliest-tripped model, and
erases every breaker record — the Llama record included — instead of
half-opening the oldest one. -/
theorem select_standard_fallback_counterexample :
    (ScrapingAgent.selectStandardModel 0 1000 ScrapingAgent.allBrokenCounts).1.id =
      "google/gemini-flash-1.5-8b"
    ∧ ("google/gemini-flash-1.5-8b" : String) ≠ "meta-llama/llama-3.2-3b-instruct:free"
    ∧ (ScrapingAgent.selectStandardModel 0 1000 ScrapingAgent.allBrokenCounts).2
        "meta-llama/llama-3.2-3b-instruct:free" = none
    ∧ (ScrapingAgent.selectStandardModel 0 1000 ScrapingAgent.allBrokenCounts).2
        "google/gemini-flash-1.5-8b" = none := by
  refine ⟨?_, by decide, ?_, ?_⟩ <;> rfl

/-- A successful association-list lookup produces a listed pair. -/
lemma mem_of_lookup_some {β : Type} (k : String) (v : β) :
    ∀ l : List (String × β), List.lookup k l = some v → (k, v) ∈ l := by
  intro l
  induction l with
  | nil => intro h; simp [List.lookup] at h
  | cons a t ih =>
    intro h
    rcases a with ⟨ak, av⟩
    by_cases hak : k = ak
    · subst hak
      simp [List.lookup] at h
      subst h
      exact List.mem_cons_self _ _
    · rw [show List.lookup k ((ak, av) :: t) = List.lookup k t by
        simp [List.lookup, beq_eq_false_iff_ne.mpr hak]] at h
      exact List.mem_cons_of_mem _ (ih h)

/-- Looking up a key after updating every pair carrying it finds the new
value (the key must occur). -/
lemma lookup_map_update {β : Type} (k : String) (v : β) :
    ∀ l : List (String × β), k ∈ l.map Prod.fst →
      List.lookup k (l.map fun p => if p.1 = k then (k, v) else p) = some v := by
  intro l
  induction l with
  | nil => intro h; simp at h
  | cons a t ih =>
    intro h
    rcases a with ⟨ak, av⟩
    by_cases hak : ak = k
    · subst hak
      simp only [List.map_cons]
      simp [List.lookup]
    · have hk : k ∈ t.map Prod.fst := by
        rcases List.mem_map.mp h with ⟨p, hp, hpk⟩
        rcases List.mem_cons.mp hp with rfl | hp2
        · exact absurd hpk hak
        · exact List.mem_map.mpr ⟨p, hp2, hpk⟩
      simp only [List.map_cons]
      rw [show (if ((ak, av) : String × β).1 = k then (k, v) else (ak, av)) = (ak, av) from
        if_neg hak]
      rw [show List.lookup k ((ak, av) ::
          (t.map fun p => if p.1 = k then (k, v) else p)) =
          List.lookup k (t.map fun p => if p.1 = k then (k, v) else p) by
        simp [List.lookup, beq_eq_false_iff_ne.mpr (fun hEq => hak hEq.symm)]]
      exact ih hk

/-- Embedding of `Map.set` then `Map.get` on the same (existing) key yields the stored
value. -/
lemma mapGet_mapSet_self {β : Type} (l : List (String × β)) (k : String) (v : β)
    (hmem : k ∈ l.map Prod.fst) :
    ModelSelector.mapGet (ModelSelector.mapSet l k v) k = some v := by
  have hany : l.any (fun p => p.1 = k) = true := by
    rcases List.mem_map.mp hmem with ⟨p, hp, hpk⟩
    exact List.any_eq_true.mpr ⟨p, hp, by simp [hpk]⟩
  simp only [ModelSelector.mapSet, hany, if_true]
  exact lookup_map_update k v l hmem

/-- An open, unexpired circuit reports open and leaves the map untouched. -/
lemma isCircuitOpen_of_open (now : ℕ) (id : String)
    (cbs : ModelSelector.StrMap ModelSelector.CircuitBreakerState)
    (c : ModelSelector.CircuitBreakerState)
    (hc : ModelSelector.mapGet cbs id = some c)
    (hopn : c.state = ModelSelector.CState.opn)
    (hfresh : now - c.openedAt < ModelSelector.CIRCUIT_BREAKER_RESET_MS) :
    ModelSelector.isCircuitOpen now id cbs = (true, cbs) := by
  simp only [ModelSelector.isCircuitOpen, hc]
  rw [if_neg (by simp [hopn])]
  rw [if_neg (by rintro ⟨h1, h2⟩; omega)]
  simp [hopn]

/-- When every model in the list has an open, unexpired circuit, the
availability filter keeps nothing and leaves the circuit map untouched. -/
lemma filterAvailable_allOpen (now : ℕ) :
    ∀ (models : List ModelSelector.ModelConfig)
      (cbs : ModelSelector.StrMap ModelSelector.CircuitBreakerState)
      (acc : List ModelSelector.ModelConfig),
    (∀ m ∈ models, ∃ c, ModelSelector.mapGet cbs m.id = some c ∧
      c.state = ModelSelector.CState.opn ∧
      now - c.openedAt < ModelSelector.CIRCUIT_BREAKER_RESET_MS) →
    models.foldl
      (fun acc m =>
        let res := ModelSelector.isCircuitOpen now m.id acc.2
        (if res.1 then acc.1 else acc.1 ++ [m], res.2))
      (acc, cbs) = (acc, cbs) := by
  intro models
  induction models with
  | nil => intro cbs acc _; rfl
  | cons m t ih =>
    intro cbs acc hopen
    obtain ⟨c, hc, hopn, hfresh⟩ := hopen m (List.mem_cons_self _ _)
    rw [List.foldl_cons]
    have hstep := isCircuitOpen_of_open now m.id cbs c hc hopn hfresh
    simp only [hstep]
    exact ih cbs acc (fun m2 hm2 => hopen m2 (List.mem_cons_of_mem _ hm2))

/-- The `resetOldestCircuit` fold either never updates its accumulator — in
which case every open circuit in the list is at least as new as the held
best — or ends at the first open circuit of strictly minimal `openedAt`,
together with the model of that circuit from the table. -/
lemma resetFold_spec (models : List ModelSelector.ModelConfig) :
    ∀ (l : List (String × ModelSelector.CircuitBreakerState))
      (acc : Option (String × ModelSelector.CircuitBreakerState) ×
        Option ModelSelector.ModelConfig),
    (∀ p ∈ l, ∃ m ∈ models, m.id = p.1) →
    (l.foldl (ModelSelector.resetFoldStep models) acc = acc ∧
      (∀ p ∈ l, p.2.state = ModelSelector.CState.opn →
        ∃ b, acc.1 = some b ∧ b.2.openedAt ≤ p.2.openedAt))
    ∨ (∃ bp ∈ l, bp.2.state = ModelSelector.CState.opn ∧
        (∀ q ∈ l, q.2.state = ModelSelector.CState.opn →
          bp.2.openedAt ≤ q.2.openedAt) ∧
        (∀ b, acc.1 = some b → bp.2.openedAt < b.2.openedAt) ∧
        ∃ m, List.find? (fun mm => mm.id = bp.1) models = some m ∧
          l.foldl (ModelSelector.resetFoldStep models) acc = (some bp, some m)) := by
  intro l
  induction l with
  | nil =>
    intro acc _
    exact Or.inl ⟨rfl, by simp⟩
  | cons p t ih =>
    intro acc hids
    have hpid := hids p (List.mem_cons_self _ _)
    have hids2 : ∀ q ∈ t, ∃ m ∈ models, m.id = q.1 :=
      fun q hq => hids q (List.mem_cons_of_mem _ hq)
    rw [List.foldl_cons]
    by_cases hcond : (decide (p.2.state = ModelSelector.CState.opn) &&
        (match acc.1 with
         | none => true
         | some b => decide (p.2.openedAt < b.2.openedAt))) = true
    · -- the walk adopts p as the new best
      obtain ⟨mp, hmp, hmpid⟩ := hpid
      have hfind : ∃ m, List.find? (fun mm => mm.id = p.1) models = some m := by
        have : (List.find? (fun mm => decide (mm.id = p.1)) models).isSome := by
          rw [List.find?_isSome]
          exact ⟨mp, hmp, by simp [hmpid]⟩
        rcases hf : List.find? (fun mm => decide (mm.id = p.1)) models with _ | m
        · rw [hf] at this; cases this
        · exact ⟨m, hf⟩
      obtain ⟨mfound, hmfound⟩ := hfind
      have hstep : ModelSelector.resetFoldStep models acc p = (some p, some mfound) := by
        simp only [ModelSelector.resetFoldStep, hcond, if_true, hmfound]
      have hcond2 := hcond
      rw [Bool.and_eq_true] at hcond2
      have hpopn : p.2.state = ModelSelector.CState.opn := by
        simpa using hcond2.1
      have hbetter : ∀ b, acc.1 = some b → p.2.openedAt < b.2.openedAt := by
        intro b hb
        have h2 := hcond2.2
        rw [hb] at h2
        simpa using h2
      rw [hstep]
      rcases ih (some p, some mfound) hids2 with ⟨heq, hbound⟩ | ⟨bp, hbp, hopn, hmin, himp, m, hfindm, hfold⟩
      · refine Or.inr ⟨p, List.mem_cons_self _ _, hpopn, ?_, hbetter, mfound, hmfound, by rw [heq]⟩
        intro q hq hqopn
        rcases List.mem_cons.mp hq with rfl | hq2
        · exact le_refl _
        · obtain ⟨b, hb, hble⟩ := hbound q hq2 hqopn
          cases hb
          exact hble
      · refine Or.inr ⟨bp, List.mem_cons_of_mem _ hbp, hopn, ?_, ?_, m, hfindm, hfold⟩
        · intro q hq hqopn
          rcases List.mem_cons.mp hq with rfl | hq2
          · exact le_of_lt (himp _ rfl)
          · exact hmin q hq2 hqopn
        · intro b hb
          exact lt_trans (himp p rfl) (hbetter b hb)
    · -- the walk keeps its accumulator at p
      have hstep : ModelSelector.resetFoldStep models acc p = acc := by
        simp only [ModelSelector.resetFoldStep]
        rw [if_neg (by simpa using hcond)]
      have hskip : p.2.state = ModelSelector.CState.opn →
          ∃ b, acc.1 = some b ∧ b.2.openedAt ≤ p.2.openedAt := by
        intro hpopn
        rcases hacc : acc.1 with _ | b
        · exfalso
          apply hcond
          simp [hpopn, hacc]
        · refine ⟨b, rfl, ?_⟩
          by_contra hlt
          apply hcond
          simp [hpopn, hacc]
          omega
      rw [hstep]
      rcases ih acc hids2 with ⟨heq, hbound⟩ | ⟨bp, hbp, hopn, hmin, himp, m, hfindm, hfold⟩
      · refine Or.inl ⟨heq, ?_⟩
        intro q hq hqopn
        rcases List.mem_cons.mp hq with rfl | hq2
        · exact hskip hqopn
        · exact hbound q hq2 hqopn
      · refine Or.inr ⟨bp, List.mem_cons_of_mem _ hbp, hopn, ?_, himp, m, hfindm, hfold⟩
        intro q hq hqopn
        rcases List.mem_cons.mp hq with rfl | hq2
        · obtain ⟨b, hb, hble⟩ := hskip hqopn
          exact le_trans (le_of_lt (himp b hb)) hble
        · exact hmin q hq2 hqopn

/-- When some listed circuit is open and the id of every circuit has a model in
the table, `resetOldestCircuit` flips the earliest-opened circuit to
half-open and returns its model. -/
lemma resetOldestCircuit_spec (models : List ModelSelector.ModelConfig)
    (cbs : ModelSelector.StrMap ModelSelector.CircuitBreakerState)
    (hids : ∀ p ∈ cbs, ∃ m ∈ models, m.id = p.1)
    (hex : ∃ p ∈ cbs, p.2.state = ModelSelector.CState.opn) :
    ∃ bp ∈ cbs, bp.2.state = ModelSelector.CState.opn ∧
      (∀ q ∈ cbs, q.2.state = ModelSelector.CState.opn →
        bp.2.openedAt ≤ q.2.openedAt) ∧
      ∃ m, List.find? (fun mm => mm.id = bp.1) models = some m ∧
        ModelSelector.resetOldestCircuit models cbs =
          (some m, ModelSelector.mapSet cbs bp.1
            { bp.2 with state := ModelSelector.CState.halfOpen }) := by
  rcases resetFold_spec models cbs (none, none) hids with ⟨_, hbound⟩ |
    ⟨bp, hbp, hopn, hmin, _, m, hfindm, hfold⟩
  · obtain ⟨p, hp, hpopn⟩ := hex
    obtain ⟨b, hb, _⟩ := hbound p hp hpopn
    cases hb
  · refine ⟨bp, hbp, hopn, hmin, m, hfindm, ?_⟩
    simp only [ModelSelector.resetOldestCircuit, hfold]

/-- A model above the error threshold reports a broken circuit. -/
lemma isCircuitBroken_true_of_threshold (now : ℕ) (id : String)
    (ec : ScrapingAgent.ErrorCounts)
    (h : ScrapingAgent.CIRCUIT_BREAKER_THRESHOLD ≤ ScrapingAgent.recentCount now id ec) :
    (ScrapingAgent.isCircuitBroken now id ec).1 = true := by
  rcases hec : ec id with _ | l
  · exfalso
    simp [ScrapingAgent.recentCount, hec, ScrapingAgent.CIRCUIT_BREAKER_THRESHOLD] at h
  · have h3 : ScrapingAgent.CIRCUIT_BREAKER_THRESHOLD ≤
        (l.filter (fun ts => decide (now - ts <
          ScrapingAgent.CIRCUIT_BREAKER_WINDOW_MS))).length := by
      simpa [ScrapingAgent.recentCount, hec] using h
    have hne : (l.filter (fun ts => decide (now - ts <
        ScrapingAgent.CIRCUIT_BREAKER_WINDOW_MS))).isEmpty = false := by
      rcases hf : l.filter (fun ts => decide (now - ts <
          ScrapingAgent.CIRCUIT_BREAKER_WINDOW_MS)) with _ | ⟨a, t⟩
      · rw [hf] at h3
        simp [ScrapingAgent.CIRCUIT_BREAKER_THRESHOLD] at h3
      · rfl
    simp only [ScrapingAgent.isCircuitBroken, hec]
    rw [if_neg (by simp [hne])]
    simpa using h3

/-- Embedding of `isCircuitBroken` only prunes stale timestamps: recent counts at the same
instant are untouched, for every model. -/
lemma isCircuitBroken_preserves_recentCount (now : ℕ) (id : String)
    (ec : ScrapingAgent.ErrorCounts) (id2 : String) :
    ScrapingAgent.recentCount now id2 (ScrapingAgent.isCircuitBroken now id ec).2 =
      ScrapingAgent.recentCount now id2 ec := by
  rcases hec : ec id with _ | l
  · simp [ScrapingAgent.isCircuitBroken, hec]
  · simp only [ScrapingAgent.isCircuitBroken, hec]
    by_cases hemp : (l.filter (fun ts => decide (now - ts <
        ScrapingAgent.CIRCUIT_BREAKER_WINDOW_MS))).isEmpty = true
    · rw [if_pos hemp]
      by_cases hid : id2 = id
      · subst hid
        simp [ScrapingAgent.recentCount, hec, List.isEmpty_iff.mp hemp]
      · simp [ScrapingAgent.recentCount, hid]
    · rw [if_neg hemp]
      by_cases hid : id2 = id
      · subst hid
        simp only [ScrapingAgent.recentCount, hec]
        simp only [eq_self_iff_true, if_true, Option.getD_some]
        rw [List.filter_filter]
        congr 1
        exact List.filter_congr (fun x _ => Bool.and_self _)
      · simp [ScrapingAgent.recentCount, hid]

/-- The health filter keeps no model when every listed model is over the
threshold. -/
lemma filterHealthy_fold_broken (now : ℕ) :
    ∀ (l : List ScrapingAgent.ModelConfig) (ec : ScrapingAgent.ErrorCounts)
      (acc : List ScrapingAgent.ModelConfig),
    (∀ m ∈ l, ScrapingAgent.CIRCUIT_BREAKER_THRESHOLD ≤
      ScrapingAgent.recentCount now m.id ec) →
    (l.foldl
      (fun acc m =>
        let res := ScrapingAgent.isCircuitBroken now m.id acc.2
        (if res.1 then acc.1 else acc.1 ++ [m], res.2))
      (acc, ec)).1 = acc := by
  intro l
  induction l with
  | nil => intro ec acc _; rfl
  | cons m t ih =>
    intro ec acc hcnt
    rw [List.foldl_cons]
    have hbrk := isCircuitBroken_true_of_threshold now m.id ec
      (hcnt m (List.mem_cons_self _ _))
    simp only [hbrk, if_pos]
    exact ih (ScrapingAgent.isCircuitBroken now m.id ec).2 acc
      (fun m2 hm2 => by
        rw [isCircuitBroken_preserves_recentCount]
        exact hcnt m2 (List.mem_cons_of_mem _ hm2))

/-- C9 as amended: the two selection engines behave differently when every
pool circuit is open.  The `WeightedModelSelector.selectModel` of
model-selector.ts resets the circuit that was opened earliest to half-open
and returns the model of that circuit without throwing (its first-enabled-model
fallback is reachable only when no open circuit is recorded).  The
`selectStandardModel` of the scraping agent instead clears *all* circuit breakers
and returns the first `FREE_MODELS` entry, regardless of which circuit
tripped earliest. -/
theorem select_all_open_reset_oldest :
    (∀ (models : List ModelSelector.ModelConfig) (rand : ℚ) (now : ℕ)
        (st : ModelSelector.SelectorState),
      ModelSelector.getEnabledModels models ≠ [] →
      (∀ p ∈ st.circuitBreakers, ∃ m ∈ models, m.id = p.1) →
      (∀ m ∈ ModelSelector.getEnabledModels models, ∃ c,
        ModelSelector.mapGet st.circuitBreakers m.id = some c ∧
        c.state = ModelSelector.CState.opn ∧
        now - c.openedAt < ModelSelector.CIRCUIT_BREAKER_RESET_MS) →
      ∃ bp ∈ st.circuitBreakers, ∃ m2 : ModelSelector.ModelConfig,
        bp.2.state = ModelSelector.CState.opn ∧
        (∀ q ∈ st.circuitBreakers, q.2.state = ModelSelector.CState.opn →
          bp.2.openedAt ≤ q.2.openedAt) ∧
        m2.id = bp.1 ∧
        (ModelSelector.selectModel models rand now st).1 =
          Except.ok (m2, ModelSelector.calculateEffectiveWeight m2
            (ModelSelector.mapGet st.performances m2.id)) ∧
        ModelSelector.mapGet
          (ModelSelector.selectModel models rand now st).2.circuitBreakers bp.1 =
          some { bp.2 with state := ModelSelector.CState.halfOpen })
    ∧ (∀ (rand : ℚ) (now : ℕ) (ec : ScrapingAgent.ErrorCounts),
      (∀ m ∈ ScrapingAgent.FREE_MODELS,
        ScrapingAgent.CIRCUIT_BREAKER_THRESHOLD ≤
          ScrapingAgent.recentCount now m.id ec) →
      ScrapingAgent.selectStandardModel rand now ec =
        (ScrapingAgent.FREE_MODELS.headI, fun _ => none)) := by
  constructor
  · intro models rand now st hne hids hopen
    obtain ⟨m0, ms, hE⟩ : ∃ m0 ms, ModelSelector.getEnabledModels models = m0 :: ms := by
      rcases h : ModelSelector.getEnabledModels models with _ | ⟨m0, ms⟩
      · exact absurd h hne
      · exact ⟨m0, ms, rfl⟩
    have hopen2 : ∀ m ∈ (m0 :: ms), ∃ c,
        ModelSelector.mapGet st.circuitBreakers m.id = some c ∧
        c.state = ModelSelector.CState.opn ∧
        now - c.openedAt < ModelSelector.CIRCUIT_BREAKER_RESET_MS := by
      rw [← hE]; exact hopen
    have hfa : ModelSelector.filterAvailable now (m0 :: ms) st.circuitBreakers =
        ([], st.circuitBreakers) :=
      filterAvailable_allOpen now (m0 :: ms) st.circuitBreakers [] hopen2
    obtain ⟨c0, hc0, hc0opn, _⟩ := hopen2 m0 (List.mem_cons_self _ _)
    have hex : ∃ p ∈ st.circuitBreakers, p.2.state = ModelSelector.CState.opn :=
      ⟨(m0.id, c0), mem_of_lookup_some _ _ _ hc0, hc0opn⟩
    obtain ⟨bp, hbp, hopn, hmin, m2, hfind, hreset⟩ :=
      resetOldestCircuit_spec models st.circuitBreakers hids hex
    have hsel : ModelSelector.selectModel models rand now st = (Except.ok (m2, ModelSelector.calculateEffectiveWeight m2 (ModelSelector.mapGet st.performances m2.id)), { st with circuitBreakers := ModelSelector.mapSet st.circuitBreakers bp.1 { bp.2 with state := ModelSelector.CState.halfOpen } }) := by
      simp only [ModelSelector.selectModel]
      rw [hE]
      simp [hfa, hreset]
    refine ⟨bp, hbp, m2, hopn, hmin, ?_, ?_, ?_⟩
    · have := List.find?_some hfind
      simpa using this
    · rw [hsel]
    · rw [hsel]
      have hkey : bp.1 ∈ st.circuitBreakers.map Prod.fst :=
        List.mem_map.mpr ⟨bp, hbp, rfl⟩
      exact mapGet_mapSet_self st.circuitBreakers bp.1
        { bp.2 with state := ModelSelector.CState.halfOpen } hkey
  · intro rand now ec hcnt
    have h1 : (ScrapingAgent.filterHealthy now ScrapingAgent.FREE_MODELS ec).1 = [] :=
      filterHealthy_fold_broken now ScrapingAgent.FREE_MODELS ec [] hcnt
    simp only [ScrapingAgent.selectStandardModel, h1, List.isEmpty_nil, if_true]
    rfl

/-- Witness for the amended C9, both engines at concrete inputs: a two-model
table whose circuits are both open (the second opened earlier) and the
all-broken scraping-agent state. -/
theorem select_all_open_reset_oldest_witness :
    (∃ bp ∈ ([("m1", ⟨ModelSelector.CState.opn, 50, 5⟩),
        ("m2", ⟨ModelSelector.CState.opn, 10, 5⟩)] :
          ModelSelector.StrMap ModelSelector.CircuitBreakerState),
      ∃ m2 : ModelSelector.ModelConfig,
        bp.2.state = ModelSelector.CState.opn ∧
        (∀ q ∈ ([("m1", ⟨ModelSelector.CState.opn, 50, 5⟩),
            ("m2", ⟨ModelSelector.CState.opn, 10, 5⟩)] :
              ModelSelector.StrMap ModelSelector.CircuitBreakerState),
          q.2.state = ModelSelector.CState.opn → bp.2.openedAt ≤ q.2.openedAt) ∧
        m2.id = bp.1 ∧
        (ModelSelector.selectModel [⟨"m1", 30, true⟩, ⟨"m2", 20, true⟩] 0 100
          { performances := [],
            circuitBreakers := [("m1", ⟨ModelSelector.CState.opn, 50, 5⟩),
              ("m2", ⟨ModelSelector.CState.opn, 10, 5⟩)] }).1 =
          Except.ok (m2, ModelSelector.calculateEffectiveWeight m2
            (ModelSelector.mapGet [] m2.id)) ∧
        ModelSelector.mapGet
          (ModelSelector.selectModel [⟨"m1", 30, true⟩, ⟨"m2", 20, true⟩] 0 100
            { performances := [],
              circuitBreakers := [("m1", ⟨ModelSelector.CState.opn, 50, 5⟩),
                ("m2", ⟨ModelSelector.CState.opn, 10, 5⟩)] }).2.circuitBreakers bp.1 =
          some { bp.2 with state := ModelSelector.CState.halfOpen })
    ∧ ScrapingAgent.selectStandardModel 0 1000 ScrapingAgent.allBrokenCounts =
        (ScrapingAgent.FREE_MODELS.headI, fun _ => none) := by
  constructor
  · exact select_all_open_reset_oldest.1 [⟨"m1", 30, true⟩, ⟨"m2", 20, true⟩] 0 100
      { performances := [],
        circuitBreakers := [("m1", ⟨ModelSelector.CState.opn, 50, 5⟩),
          ("m2", ⟨ModelSelector.CState.opn, 10, 5⟩)] }
      (by decide) (by decide)
      (by
        intro m hm
        have henum : ModelSelector.getEnabledModels
            [⟨"m1", 30, true⟩, ⟨"m2", 20, true⟩] =
            [⟨"m1", 30, true⟩, ⟨"m2", 20, true⟩] := by decide
        rw [henum] at hm
        rcases List.mem_cons.mp hm with rfl | hm2
        · exact ⟨⟨ModelSelector.CState.opn, 50, 5⟩, rfl, rfl, by decide⟩
        · rcases List.mem_singleton.mp hm2 with rfl
          exact ⟨⟨ModelSelector.CState.opn, 10, 5⟩, rfl, rfl, by decide⟩)
  · exact select_all_open_reset_oldest.2 0 1000 ScrapingAgent.allBrokenCounts (by decide)

end PriceHawk

